import Mathlib

/-!
Verification development for the Green_Commerce group-buying coordination
engine (`services/groupBuyingService.js`, `models/GroupBuy.js`,
`models/Product.js`, `models/User.js`).

The service is shallowly embedded: the Mongo collections become lists of
records in a `St` state, each `await ...save()` becomes a functional update
of that state, and one timestamp `now : Nat` stands for the `new Date()`
calls made during a single service call.  Money/carbon quantities are
rationals (the source uses JS numbers; every concrete value appearing in
the spec's scenarios is exactly representable).  The notification sink is
modelled by appending a structured event carrying the fields the source
interpolates into the title/message strings (`userId`, `productId`,
`productName`, `discountPercent`) plus, as bookkeeping for stating
per-opportunity properties, the id of the opportunity that emitted it.
Each operation additionally returns the ordered list of persistence writes
it performed, so that write-ordering claims can be stated.
-/

namespace GreenCommerce

/-- Status enum of the GroupBuy schema: `['active', 'completed', 'expired', 'cancelled']`. -/
inductive Status where
  | active
  | completed
  | expired
  | cancelled
deriving DecidableEq, Repr

/-- A `participants` array entry of the GroupBuy schema: `{userId, joinedAt}`. -/
structure Participant where
  userId : Nat
  joinedAt : Nat
deriving DecidableEq, Repr

/-- The GroupBuy document (`models/GroupBuy.js`). -/
structure GroupBuy where
  id : Nat
  productId : Nat
  productName : String
  initiatorId : Nat
  threshold : Nat
  discountPercent : ℚ
  carbonSavingPercent : ℚ
  expiryDate : Nat
  participants : List Participant
  status : Status
  completedAt : Option Nat
  createdAt : Nat
deriving DecidableEq, Repr

/-- The `groupBuying` sub-document of the Product schema (`models/Product.js`). -/
structure GroupBuyingSettings where
  enabled : Bool
  threshold : Nat
  carbonSavingPercent : ℚ
  discountPercent : ℚ
  expiryDays : Nat
  currentParticipants : Nat
deriving DecidableEq, Repr

/-- The `sustainability` sub-document of the Product schema (only the field
the group-buying engine reads; `carbonFootprint` defaults to `null`). -/
structure SustainabilityInfo where
  carbonFootprint : Option ℚ
deriving DecidableEq, Repr

/-- The Product document (`models/Product.js`), restricted to the fields the
group-buying engine reads or writes. -/
structure Product where
  id : Nat
  name : String
  groupBuying : GroupBuyingSettings
  sustainability : SustainabilityInfo
deriving DecidableEq, Repr

/-- A `groupBuyingParticipation` array entry of the User schema (`models/User.js`). -/
structure ParticipationEntry where
  groupId : Nat
  productId : Nat
  productName : String
  joinedAt : Nat
  status : Status
  potentialCarbonSaving : ℚ
deriving DecidableEq, Repr

/-- The User document, restricted to the group-buying participation log. -/
structure UserDoc where
  id : Nat
  groupBuyingParticipation : List ParticipationEntry
deriving DecidableEq, Repr

/-- A `sendGroupBuyingNotification` event.  The source passes
`(participant.userId, groupBuy.productId, title, message)` where the message
string interpolates `groupBuy.productName` and `groupBuy.discountPercent`;
those interpolated fields are recorded structurally.  `groupId` records which
opportunity emitted the event (model bookkeeping used to state
per-opportunity claims; the source identifies the batch the same way, by the
`groupBuy` document in scope at the emission site). -/
structure NotificationEvent where
  userId : Nat
  productId : Nat
  productName : String
  discountPercent : ℚ
  groupId : Nat
deriving DecidableEq, Repr

/-- One persistence write performed by a service call, in program order:
a `product.save()` carrying the new counter value, a `groupBuy.save()`,
or a `user.save()`. -/
inductive WriteEvent where
  | productWrite (productId : Nat) (counter : Nat)
  | groupWrite (groupId : Nat)
  | userWrite (userId : Nat)
deriving DecidableEq, Repr

/-- The persisted state: the three Mongo collections, the sink of emitted
notification events, and the id allocator for new GroupBuy documents. -/
structure St where
  products : List Product
  groupBuys : List GroupBuy
  users : List UserDoc
  notifications : List NotificationEvent
  nextGroupId : Nat
deriving DecidableEq, Repr

/-- The business-rule errors thrown by the service (`throw new Error(...)`). -/
inductive GBError where
  | productNotFound
  | featureDisabled
  | groupNotFound
  | invalidState (status : Status)
  | expiredGroup
deriving DecidableEq, Repr

/-- Rendering of a status, as interpolated into the source's error message. -/
def statusText : Status → String
  | Status.active => "active"
  | Status.completed => "completed"
  | Status.expired => "expired"
  | Status.cancelled => "cancelled"

/-- The exact `Error` message strings of the source. -/
def GBError.message : GBError → String
  | GBError.productNotFound => "Product not found"
  | GBError.featureDisabled => "Group buying is not enabled for this product"
  | GBError.groupNotFound => "Group buy not found"
  | GBError.invalidState s => "Cannot join a " ++ statusText s ++ " group buy"
  | GBError.expiredGroup => "This group buy has expired"

/-- Successful return value of `joinGroupBuy`: `{ groupBuy, message }`. -/
structure JoinResult where
  groupBuy : GroupBuy
  message : String
deriving DecidableEq, Repr

/-- Successful return value of `createGroupBuy`: either the newly created
document or, on delegation, the `joinGroupBuy` result object. -/
inductive CreateOutcome where
  | created (groupBuy : GroupBuy)
  | joined (r : JoinResult)
deriving DecidableEq, Repr

/-- Result bundle of a `joinGroupBuy` call: the returned (or thrown) value,
the state after the call, and the ordered persistence writes it performed. -/
structure JoinOut where
  result : Except GBError JoinResult
  state : St
  writes : List WriteEvent

/-- Result bundle of a `createGroupBuy` call. -/
structure CreateOut where
  result : Except GBError CreateOutcome
  state : St
  writes : List WriteEvent

/-- `Product.findById(pid)`. -/
def findProduct (st : St) (pid : Nat) : Option Product :=
  st.products.find? (fun p => decide (p.id = pid))

/-- `GroupBuy.findById(gid)`. -/
def findGroupBuy (st : St) (gid : Nat) : Option GroupBuy :=
  st.groupBuys.find? (fun g => decide (g.id = gid))

/-- `User.findById(uid)`. -/
def findUser (st : St) (uid : Nat) : Option UserDoc :=
  st.users.find? (fun u => decide (u.id = uid))

/-- `groupBuy.save()` for an already-persisted document: by-id replacement
in the collection. -/
def replaceGroupBuy (g : GroupBuy) (st : St) : St :=
  { st with groupBuys := st.groupBuys.map (fun h => if h.id = g.id then g else h) }

/-- `product.save()`: by-id replacement in the collection. -/
def replaceProduct (p : Product) (st : St) : St :=
  { st with products := st.products.map (fun q => if q.id = p.id then p else q) }

/-- `user.save()`: by-id replacement in the collection. -/
def replaceUser (u : UserDoc) (st : St) : St :=
  { st with users := st.users.map (fun v => if v.id = u.id then u else v) }

/-- JS `product.sustainability.carbonFootprint || 10`: a missing (`null`)
or zero footprint falls back to 10 (both are falsy in JS). -/
def footprintOrDefault : Option ℚ → ℚ
  | none => 10
  | some x => if x = 0 then 10 else x

/-- The `participants.some(p => p.userId.toString() === userId.toString())`
check of `joinGroupBuy`. -/
def alreadyParticipant (g : GroupBuy) (userId : Nat) : Prop :=
  ∃ p ∈ g.participants, p.userId = userId

instance (g : GroupBuy) (userId : Nat) : Decidable (alreadyParticipant g userId) := by
  unfold alreadyParticipant; infer_instance

/-- The notification event fired for participant `p` at the point where
`groupBuy` reaches its threshold. -/
def mkNotif (g : GroupBuy) (p : Participant) : NotificationEvent :=
  { userId := p.userId, productId := g.productId, productName := g.productName,
    discountPercent := g.discountPercent, groupId := g.id }

/-- The groupBuy document as it stands at the `groupBuy.save()` call of a
participant-appending `joinGroupBuy`: the new participant pushed, and, when
`participants.length >= threshold` (with the document still `active`), the
status flipped to `completed` and `completedAt` set. -/
def joinUpdatedDoc (now userId : Nat) (g : GroupBuy) : GroupBuy :=
  let parts := g.participants ++ [{ userId := userId, joinedAt := now }]
  if g.threshold ≤ parts.length then
    { g with participants := parts, status := Status.completed, completedAt := some now }
  else
    { g with participants := parts }

/-- The batch of notification events fired by a participant-appending
`joinGroupBuy`: one per (post-append) participant when the threshold is
reached, none otherwise. -/
def joinNotifs (now userId : Nat) (g : GroupBuy) : List NotificationEvent :=
  let parts := g.participants ++ [{ userId := userId, joinedAt := now }]
  if g.threshold ≤ parts.length then parts.map (mkNotif g) else []

/-- The body of `joinGroupBuy` after its initial `GroupBuy.findById` read
(`g` is the document that read returned).  Splitting the function at that
first `await` lets concurrent interleavings of the source's
read-then-check-then-write pattern be expressed by running this body
against a state that has moved on since the read. -/
def joinGroupBuyFromDoc (now userId : Nat) (g : GroupBuy) (st : St) : JoinOut :=
  if g.status ≠ Status.active then
    { result := Except.error (GBError.invalidState g.status), state := st, writes := [] }
  else if g.expiryDate < now then
    { result := Except.error GBError.expiredGroup,
      state := replaceGroupBuy { g with status := Status.expired } st,
      writes := [WriteEvent.groupWrite g.id] }
  else if alreadyParticipant g userId then
    let r : JoinResult :=
      { groupBuy := g, message := "You are already participating in this group buy" }
    { result := Except.ok r, state := st, writes := [] }
  else
    let parts := g.participants ++ [{ userId := userId, joinedAt := now }]
    let productOpt := findProduct st g.productId
    let st1 := match productOpt with
      | some product =>
          replaceProduct
            { product with groupBuying :=
                { product.groupBuying with currentParticipants := parts.length } } st
      | none => st
    let w1 : List WriteEvent := match productOpt with
      | some _ => [WriteEvent.productWrite g.productId parts.length]
      | none => []
    let g' := joinUpdatedDoc now userId g
    let notifs := joinNotifs now userId g
    let st2 := { st1 with notifications := st1.notifications ++ notifs }
    let st3 := replaceGroupBuy g' st2
    match findUser st3 userId, productOpt with
    | some user, some product =>
        let entry : ParticipationEntry :=
          { groupId := g.id, productId := g.productId, productName := g.productName,
            joinedAt := now, status := g'.status,
            potentialCarbonSaving :=
              footprintOrDefault product.sustainability.carbonFootprint
                * product.groupBuying.carbonSavingPercent / 100 }
        { result := Except.ok { groupBuy := g', message := "Successfully joined group buy" },
          state := replaceUser
            { user with groupBuyingParticipation := user.groupBuyingParticipation ++ [entry] }
            st3,
          writes := w1 ++ [WriteEvent.groupWrite g.id, WriteEvent.userWrite userId] }
    | _, _ =>
        { result := Except.ok { groupBuy := g', message := "Successfully joined group buy" },
          state := st3,
          writes := w1 ++ [WriteEvent.groupWrite g.id] }

/-- `joinGroupBuy(groupId, userId)` of `groupBuyingService.js`. -/
def joinGroupBuy (now groupId userId : Nat) (st : St) : JoinOut :=
  match findGroupBuy st groupId with
  | none => { result := Except.error GBError.groupNotFound, state := st, writes := [] }
  | some g => joinGroupBuyFromDoc now userId g st

/-- The `GroupBuy.findOne({productId, status: 'active', expiryDate: {$gt: now}})`
lookup of `createGroupBuy`. -/
def findActiveGroupBuy (now pid : Nat) (st : St) : Option GroupBuy :=
  st.groupBuys.find?
    (fun g => decide (g.productId = pid ∧ g.status = Status.active ∧ now < g.expiryDate))

/-- The GroupBuy document built by the create path of `createGroupBuy`:
policy values copied from the product, expiry fixed at creation, the
initiator as sole participant, status `active` (`gid` is the id Mongo
assigns at construction). -/
def newGroupBuyDoc (now productId userId : Nat) (product : Product) (gid : Nat) : GroupBuy :=
  { id := gid, productId := productId, productName := product.name,
    initiatorId := userId, threshold := product.groupBuying.threshold,
    discountPercent := product.groupBuying.discountPercent,
    carbonSavingPercent := product.groupBuying.carbonSavingPercent,
    expiryDate := now + product.groupBuying.expiryDays,
    participants := [{ userId := userId, joinedAt := now }],
    status := Status.active, completedAt := none, createdAt := now }

/-- `createGroupBuy(productId, userId)` of `groupBuyingService.js`.  Note the
source's write order on the create path: the product's participation counter
is saved first, then the new GroupBuy document, then the user's log. -/
def createGroupBuy (now productId userId : Nat) (st : St) : CreateOut :=
  match findProduct st productId with
  | none => { result := Except.error GBError.productNotFound, state := st, writes := [] }
  | some product =>
    if product.groupBuying.enabled then
      match findActiveGroupBuy now productId st with
      | some existingGroup =>
          let j := joinGroupBuy now existingGroup.id userId st
          { result := j.result.map CreateOutcome.joined, state := j.state, writes := j.writes }
      | none =>
          let newGroupBuy : GroupBuy := newGroupBuyDoc now productId userId product st.nextGroupId
          let st1 := replaceProduct
            { product with groupBuying := { product.groupBuying with currentParticipants := 1 } }
            st
          let st2 : St :=
            { st1 with
              groupBuys := st1.groupBuys ++ [newGroupBuy]
              nextGroupId := st1.nextGroupId + 1 }
          match findUser st2 userId with
          | some user =>
              let entry : ParticipationEntry :=
                { groupId := newGroupBuy.id, productId := productId,
                  productName := product.name, joinedAt := now, status := Status.active,
                  potentialCarbonSaving :=
                    footprintOrDefault product.sustainability.carbonFootprint
                      * product.groupBuying.carbonSavingPercent / 100 }
              { result := Except.ok (CreateOutcome.created newGroupBuy),
                state := replaceUser
                  { user with groupBuyingParticipation :=
                      user.groupBuyingParticipation ++ [entry] } st2,
                writes := [WriteEvent.productWrite productId 1,
                           WriteEvent.groupWrite newGroupBuy.id,
                           WriteEvent.userWrite userId] }
          | none =>
              { result := Except.ok (CreateOutcome.created newGroupBuy), state := st2,
                writes := [WriteEvent.productWrite productId 1,
                           WriteEvent.groupWrite newGroupBuy.id] }
    else
      { result := Except.error GBError.featureDisabled, state := st, writes := [] }

/-- The positional-operator update of
`User.updateMany({'groupBuyingParticipation.groupId': gid}, {$set: {'groupBuyingParticipation.$.status': 'expired'}})`:
the first matching array entry of each user is set to `expired`. -/
def setFirstExpired (gid : Nat) : List ParticipationEntry → List ParticipationEntry
  | [] => []
  | e :: es =>
      if e.groupId = gid then { e with status := Status.expired } :: es
      else e :: setFirstExpired gid es

/-- One iteration of the sweeper loop: persist `status = 'expired'`, update
the matching user participation entries, reset the product's counter to 0
(the `findByIdAndUpdate` reads the products collection, which the two prior
writes leave untouched, hence the lookup against `st`). -/
def sweepOne (st : St) (g : GroupBuy) : St :=
  let st1 := replaceGroupBuy { g with status := Status.expired } st
  let upd := fun (u : UserDoc) =>
    { u with groupBuyingParticipation := setFirstExpired g.id u.groupBuyingParticipation }
  let st2 := { st1 with users := st1.users.map upd }
  match findProduct st g.productId with
  | some product =>
      replaceProduct
        { product with groupBuying := { product.groupBuying with currentParticipants := 0 } }
        st2
  | none => st2

/-- `checkAndUpdateExpiredGroupBuys()` of `groupBuyingService.js`: select the
active, past-expiry documents, reconcile each, return the count. -/
def checkAndUpdateExpiredGroupBuys (now : Nat) (st : St) : Nat × St :=
  let expiredGroupBuys :=
    st.groupBuys.filter (fun g => decide (g.status = Status.active ∧ g.expiryDate < now))
  (expiredGroupBuys.length, expiredGroupBuys.foldl sweepOne st)

/-- The pure computation inside `calculateGroupBuyImpact`, as a function of
the participant count, the product's baseline footprint and the configured
saving percentage (the source wrapper only fetches those inputs by id). -/
structure GroupBuyImpact where
  participantsCount : Nat
  shippingEmissionsSaved : ℚ
  packagingSaved : ℚ
  productCarbonSavings : ℚ
  totalCarbonSaved : ℚ
  totalMaterialsSaved : ℚ
deriving DecidableEq, Repr

/-- `calculateGroupBuyImpact` body: per-shipment baseline 2.5 kg,
consolidated base 2.5 kg plus 0.5 kg per additional participant, 0.2 kg of
packaging per order, product savings `footprint × count × percent / 100`. -/
def calculateGroupBuyImpactCore (participantsCount : Nat) (carbonFootprint : Option ℚ)
    (carbonSavingPercent : ℚ) : GroupBuyImpact :=
  let productCarbonFootprint := footprintOrDefault carbonFootprint
  let individualShippingEmissions := (participantsCount : ℚ) * 2.5
  let consolidatedShippingEmissions := 2.5 + ((participantsCount : ℚ) - 1) * 0.5
  let shippingEmissionsSaved := individualShippingEmissions - consolidatedShippingEmissions
  let packagingSaved := (participantsCount : ℚ) * 0.2
  let productCarbonSavings :=
    productCarbonFootprint * (participantsCount : ℚ) * carbonSavingPercent / 100
  { participantsCount := participantsCount,
    shippingEmissionsSaved := shippingEmissionsSaved,
    packagingSaved := packagingSaved,
    productCarbonSavings := productCarbonSavings,
    totalCarbonSaved := shippingEmissionsSaved + productCarbonSavings,
    totalMaterialsSaved := packagingSaved }

/-- Steps of the engine as invoked by request handlers and the scheduler. -/
inductive Step : St → St → Prop where
  | createOrJoin (now productId userId : Nat) (st : St) :
      Step st (createGroupBuy now productId userId st).state
  | join (now groupId userId : Nat) (st : St) :
      Step st (joinGroupBuy now groupId userId st).state
  | sweep (now : Nat) (st : St) :
      Step st (checkAndUpdateExpiredGroupBuys now st).2

/-- A valid initial state: no opportunities, no notifications yet, and every
product's configured threshold at least 2 (the GroupBuy schema's `min: 2`,
spec §3). -/
def InitOk (st : St) : Prop :=
  st.groupBuys = [] ∧ st.notifications = [] ∧
    ∀ p ∈ st.products, 2 ≤ p.groupBuying.threshold

instance (st : St) : Decidable (InitOk st) := by
  unfold InitOk; infer_instance

/-- Reachability from a given initial state by engine steps. -/
inductive Reach (st0 : St) : St → Prop where
  | refl : Reach st0 st0
  | step {st st' : St} : Reach st0 st → Step st st' → Reach st0 st'

/-- The notification events recorded for a given opportunity id. -/
def notifsFor (ns : List NotificationEvent) (gid : Nat) : List NotificationEvent :=
  ns.filter (fun n => decide (n.groupId = gid))

/-- Well-formedness facts about a stored GroupBuy document that the engine
maintains: schema-validated threshold (`min: 2`), no duplicate participant,
a nonempty participant list, an `active` document strictly below threshold
with `completedAt` unset, and a `completed` document exactly at threshold
with `completedAt` set. -/
structure GBWf (g : GroupBuy) : Prop where
  threshold_ge : 2 ≤ g.threshold
  usersNodup : (g.participants.map Participant.userId).Nodup
  participants_ne : g.participants ≠ []
  active_bounds : g.status = Status.active →
    g.participants.length < g.threshold ∧ g.completedAt = none
  completed_bounds : g.status = Status.completed →
    g.participants.length = g.threshold ∧ ∃ t, g.completedAt = some t

/-- The state invariant the engine maintains from any valid initial state:
well-formed documents, unique document ids below the allocator, and the
notification sink holding exactly one batch — one event per participant —
for each completed opportunity and nothing for the others. -/
structure Inv (st : St) : Prop where
  prodThresholds : ∀ p ∈ st.products, 2 ≤ p.groupBuying.threshold
  gbWf : ∀ g ∈ st.groupBuys, GBWf g
  idsNodup : (st.groupBuys.map GroupBuy.id).Nodup
  idsLt : ∀ g ∈ st.groupBuys, g.id < st.nextGroupId
  notifLt : ∀ n ∈ st.notifications, n.groupId < st.nextGroupId
  notifCompleted : ∀ g ∈ st.groupBuys, notifsFor st.notifications g.id =
    (if g.status = Status.completed then g.participants.map (mkNotif g) else [])

/-! ### Spec-side definitions

These two definitions follow the spec's words, not the source, and exist to
be compared against the source-derived definitions above. -/

/-- Written from the spec (§4.2 step 8 with the §4.1 product-savings
formula): the carbon estimate for a joining user "computed with the
post-update `participantCount`", i.e. `footprint × count × percent / 100`. -/
def specJoinCarbonEstimate (baselineFootprint : ℚ) (participantCount : Nat)
    (carbonSavingPercent : ℚ) : ℚ :=
  baselineFootprint * (participantCount : ℚ) * carbonSavingPercent / 100

/-- Written from the claim on write ordering (§5): scanning a call's write
trace left to right, every derived-view write (product counter or user log)
must be preceded by an opportunity (`groupWrite`) write.  `seen` records
whether a `groupWrite` has occurred yet. -/
def viewWritesAfterGroupWrite : Bool → List WriteEvent → Bool
  | _, [] => true
  | _, WriteEvent.groupWrite _ :: ws => viewWritesAfterGroupWrite true ws
  | seen, WriteEvent.productWrite _ _ :: ws => seen && viewWritesAfterGroupWrite seen ws
  | seen, WriteEvent.userWrite _ :: ws => seen && viewWritesAfterGroupWrite seen ws

/-- The half of the ordering property that the source does satisfy: every
user-log write is preceded by an opportunity write (product-counter writes
are not constrained). -/
def userWriteAfterGroupWrite : Bool → List WriteEvent → Bool
  | _, [] => true
  | _, WriteEvent.groupWrite _ :: ws => userWriteAfterGroupWrite true ws
  | seen, WriteEvent.userWrite _ :: ws => seen && userWriteAfterGroupWrite seen ws
  | seen, WriteEvent.productWrite _ _ :: ws => userWriteAfterGroupWrite seen ws

/-! ### Concrete scenario states

A product with group buying enabled (`threshold` 2 or 3, `expiryDays` 7,
`carbonSavingPercent` 15, `discountPercent` 10, baseline footprint 10 kg),
matching the spec's §8 scenarios. -/

/-- Scenario product with threshold 2. -/
def productT2 : Product :=
  { id := 1, name := "Bamboo Brush",
    groupBuying := { enabled := true, threshold := 2, carbonSavingPercent := 15,
                     discountPercent := 10, expiryDays := 7, currentParticipants := 0 },
    sustainability := { carbonFootprint := some 10 } }

/-- Scenario product with threshold 3. -/
def productT3 : Product :=
  { id := 1, name := "Bamboo Brush",
    groupBuying := { enabled := true, threshold := 3, carbonSavingPercent := 15,
                     discountPercent := 10, expiryDays := 7, currentParticipants := 0 },
    sustainability := { carbonFootprint := some 10 } }

/-- Initial state for the threshold-2 scenario. -/
def initT2 : St :=
  { products := [productT2], groupBuys := [],
    users := [{ id := 100, groupBuyingParticipation := [] },
              { id := 101, groupBuyingParticipation := [] }],
    notifications := [], nextGroupId := 0 }

/-- Initial state for the threshold-3 scenario. -/
def initT3 : St :=
  { products := [productT3], groupBuys := [],
    users := [{ id := 100, groupBuyingParticipation := [] },
              { id := 101, groupBuyingParticipation := [] },
              { id := 102, groupBuyingParticipation := [] }],
    notifications := [], nextGroupId := 0 }

/-- After user 100 creates the threshold-2 opportunity at time 0. -/
def stT2a : St := (createGroupBuy 0 1 100 initT2).state

/-- After user 101 then joins at time 1: the opportunity completes. -/
def stT2b : St := (createGroupBuy 1 1 101 stT2a).state

/-- After user 100 creates the threshold-3 opportunity at time 0. -/
def stT3a : St := (createGroupBuy 0 1 100 initT3).state

/-- The threshold-3 opportunity document as read from `stT3a`. -/
def docT3 : GroupBuy :=
  { id := 0, productId := 1, productName := "Bamboo Brush", initiatorId := 100,
    threshold := 3, discountPercent := 10, carbonSavingPercent := 15, expiryDate := 7,
    participants := [{ userId := 100, joinedAt := 0 }], status := Status.active,
    completedAt := none, createdAt := 0 }

/-- The completed threshold-2 opportunity document as stored in `stT2b`. -/
def docT2b : GroupBuy :=
  { id := 0, productId := 1, productName := "Bamboo Brush", initiatorId := 100,
    threshold := 2, discountPercent := 10, carbonSavingPercent := 15, expiryDate := 7,
    participants := [{ userId := 100, joinedAt := 0 }, { userId := 101, joinedAt := 1 }],
    status := Status.completed, completedAt := some 1, createdAt := 0 }

/-- Abbreviation for the success value `{ groupBuy, message }` that
`joinGroupBuy` returns after appending a participant. -/
def joinedOk (g : GroupBuy) : Except GBError JoinResult :=
  Except.ok { groupBuy := g, message := "Successfully joined group buy" }

/-- Abbreviation for the success value returned on the idempotent
already-participant path. -/
def alreadyOk (g : GroupBuy) : Except GBError JoinResult :=
  Except.ok { groupBuy := g, message := "You are already participating in this group buy" }

/-! ### Helper lemmas -/

section KeyedListLemmas

variable {A : Type} (key : A → Nat)

lemma find?_map_replace (x : A) (l : List A) (k c : Nat) (hx : key x = k) (hc : c = k) :
    (l.map (fun h => if key h = c then x else h)).find? (fun h => decide (key h = k)) =
      (l.find? (fun h => decide (key h = k))).map (fun _ => x) := by
  induction l with
  | nil => simp
  | cons a t ih =>
      by_cases ha : key a = k
      · have hac : key a = c := by rw [ha, hc]
        simp [List.find?_cons, ha, hac, hx, hc.symm]
      · have hac : ¬ key a = c := fun hh => ha (hh.trans hc)
        simp [List.find?_cons, ha, hac, ih]


lemma find?_map_agree (f : A → A) (p : A → Bool) (l : List A)
    (h : ∀ a ∈ l, p (f a) = p a ∧ (p a = true → f a = a)) :
    (l.map f).find? p = l.find? p := by
  induction l with
  | nil => simp
  | cons a t ih =>
      rcases h a (List.mem_cons_self a t) with ⟨h1, h2⟩
      by_cases hp : p a = true
      · simp [List.find?_cons, h1, hp, h2 hp]
      · have hp' : p a = false := by simpa using hp
        simp only [List.map_cons, List.find?_cons, h1, hp']
        exact ih (fun b hb => h b (List.mem_cons_of_mem a hb))

lemma find?_replace_ne_key (x : A) (l : List A) (k c : Nat)
    (hx : ¬ key x = k) (hc : ¬ c = k) :
    (l.map (fun h => if key h = c then x else h)).find? (fun h => decide (key h = k)) =
      l.find? (fun h => decide (key h = k)) := by
  apply find?_map_agree
  intro a _
  constructor
  · by_cases h : key a = c <;> simp [h, hx, hc]
  · intro hpa
    have h1 : key a = k := by simpa using hpa
    have h2 : ¬ key a = c := fun hh => hc (hh ▸ h1)
    simp [h2]

lemma map_key_replace (x : A) (l : List A) :
    (l.map (fun h => if key h = key x then x else h)).map key = l.map key := by
  rw [List.map_map]
  apply List.map_congr_left
  intro a _
  by_cases h : key a = key x <;> simp [h]

lemma nodup_key_eq {l : List A} (hn : (l.map key).Nodup) {a b : A}
    (ha : a ∈ l) (hb : b ∈ l) (hk : key a = key b) : a = b := by
  induction l with
  | nil => cases ha
  | cons c t ih =>
      simp only [List.map_cons, List.nodup_cons] at hn
      rcases List.mem_cons.mp ha with rfl | ha' <;> rcases List.mem_cons.mp hb with rfl | hb'
      · rfl
      · exact absurd (hk ▸ List.mem_map_of_mem key hb') hn.1
      · exact absurd (hk ▸ List.mem_map_of_mem key ha') hn.1
      · exact ih hn.2 ha' hb'

lemma mem_map_replace_self {x : A} {l : List A} {a : A} (ha : a ∈ l) (hne : key a ≠ key x) :
    a ∈ l.map (fun h => if key h = key x then x else h) := by
  refine List.mem_map.mpr ⟨a, ha, ?_⟩
  simp [hne]

lemma mem_map_replace_elim {x : A} {l : List A} {a : A}
    (h : a ∈ l.map (fun h => if key h = key x then x else h)) :
    a = x ∨ (a ∈ l ∧ key a ≠ key x) := by
  rcases List.mem_map.mp h with ⟨b, hb, hba⟩
  by_cases hk : key b = key x
  · simp only [hk, if_pos] at hba
    exact Or.inl hba.symm
  · simp only [hk, if_neg, not_false_iff] at hba
    exact Or.inr ⟨hba ▸ hb, hba ▸ hk⟩

end KeyedListLemmas

section StProjections

@[simp] lemma replaceGroupBuy_users (g : GroupBuy) (st : St) :
    (replaceGroupBuy g st).users = st.users := rfl
@[simp] lemma replaceGroupBuy_products (g : GroupBuy) (st : St) :
    (replaceGroupBuy g st).products = st.products := rfl
@[simp] lemma replaceGroupBuy_notifications (g : GroupBuy) (st : St) :
    (replaceGroupBuy g st).notifications = st.notifications := rfl
@[simp] lemma replaceGroupBuy_nextGroupId (g : GroupBuy) (st : St) :
    (replaceGroupBuy g st).nextGroupId = st.nextGroupId := rfl
@[simp] lemma replaceGroupBuy_groupBuys (g : GroupBuy) (st : St) :
    (replaceGroupBuy g st).groupBuys =
      st.groupBuys.map (fun h => if h.id = g.id then g else h) := rfl

@[simp] lemma replaceProduct_users (p : Product) (st : St) :
    (replaceProduct p st).users = st.users := rfl
@[simp] lemma replaceProduct_groupBuys (p : Product) (st : St) :
    (replaceProduct p st).groupBuys = st.groupBuys := rfl
@[simp] lemma replaceProduct_notifications (p : Product) (st : St) :
    (replaceProduct p st).notifications = st.notifications := rfl
@[simp] lemma replaceProduct_nextGroupId (p : Product) (st : St) :
    (replaceProduct p st).nextGroupId = st.nextGroupId := rfl
@[simp] lemma replaceProduct_products (p : Product) (st : St) :
    (replaceProduct p st).products =
      st.products.map (fun q => if q.id = p.id then p else q) := rfl

@[simp] lemma replaceUser_products (u : UserDoc) (st : St) :
    (replaceUser u st).products = st.products := rfl
@[simp] lemma replaceUser_groupBuys (u : UserDoc) (st : St) :
    (replaceUser u st).groupBuys = st.groupBuys := rfl
@[simp] lemma replaceUser_notifications (u : UserDoc) (st : St) :
    (replaceUser u st).notifications = st.notifications := rfl
@[simp] lemma replaceUser_nextGroupId (u : UserDoc) (st : St) :
    (replaceUser u st).nextGroupId = st.nextGroupId := rfl
@[simp] lemma replaceUser_users (u : UserDoc) (st : St) :
    (replaceUser u st).users = st.users.map (fun v => if v.id = u.id then u else v) := rfl

@[simp] lemma findProduct_replaceGroupBuy (g : GroupBuy) (st : St) (pid : Nat) :
    findProduct (replaceGroupBuy g st) pid = findProduct st pid := rfl
@[simp] lemma findProduct_replaceUser (u : UserDoc) (st : St) (pid : Nat) :
    findProduct (replaceUser u st) pid = findProduct st pid := rfl
@[simp] lemma findGroupBuy_replaceProduct (p : Product) (st : St) (gid : Nat) :
    findGroupBuy (replaceProduct p st) gid = findGroupBuy st gid := rfl
@[simp] lemma findGroupBuy_replaceUser (u : UserDoc) (st : St) (gid : Nat) :
    findGroupBuy (replaceUser u st) gid = findGroupBuy st gid := rfl
@[simp] lemma findUser_replaceProduct (p : Product) (st : St) (uid : Nat) :
    findUser (replaceProduct p st) uid = findUser st uid := rfl
@[simp] lemma findUser_replaceGroupBuy (g : GroupBuy) (st : St) (uid : Nat) :
    findUser (replaceGroupBuy g st) uid = findUser st uid := rfl
@[simp] lemma findProduct_setUsers (st : St) (us : List UserDoc) (pid : Nat) :
    findProduct { st with users := us } pid = findProduct st pid := rfl
@[simp] lemma findProduct_setNotifications (st : St) (ns : List NotificationEvent) (pid : Nat) :
    findProduct { st with notifications := ns } pid = findProduct st pid := rfl
@[simp] lemma findUser_setNotifications (st : St) (ns : List NotificationEvent) (uid : Nat) :
    findUser { st with notifications := ns } uid = findUser st uid := rfl
@[simp] lemma findGroupBuy_setNotifications (st : St) (ns : List NotificationEvent) (gid : Nat) :
    findGroupBuy { st with notifications := ns } gid = findGroupBuy st gid := rfl
@[simp] lemma findGroupBuy_setUsers (st : St) (us : List UserDoc) (gid : Nat) :
    findGroupBuy { st with users := us } gid = findGroupBuy st gid := rfl

@[simp] lemma joinUpdatedDoc_id (now uid : Nat) (g : GroupBuy) :
    (joinUpdatedDoc now uid g).id = g.id := by
  unfold joinUpdatedDoc
  dsimp only
  split <;> rfl

@[simp] lemma joinUpdatedDoc_productId (now uid : Nat) (g : GroupBuy) :
    (joinUpdatedDoc now uid g).productId = g.productId := by
  unfold joinUpdatedDoc
  dsimp only
  split <;> rfl

@[simp] lemma joinUpdatedDoc_threshold (now uid : Nat) (g : GroupBuy) :
    (joinUpdatedDoc now uid g).threshold = g.threshold := by
  unfold joinUpdatedDoc
  dsimp only
  split <;> rfl

@[simp] lemma joinUpdatedDoc_participants (now uid : Nat) (g : GroupBuy) :
    (joinUpdatedDoc now uid g).participants =
      g.participants ++ [{ userId := uid, joinedAt := now }] := by
  unfold joinUpdatedDoc
  dsimp only
  split <;> rfl

end StProjections

section JoinSuccess

variable (now uid : Nat) (g : GroupBuy) (st : St)

lemma joinFromDoc_guards (ha : g.status = Status.active) (he : ¬ g.expiryDate < now)
    (hp : ¬ alreadyParticipant g uid) :
    joinGroupBuyFromDoc now uid g st =
      (let parts := g.participants ++ [{ userId := uid, joinedAt := now }]
       let productOpt := findProduct st g.productId
       let st1 := match productOpt with
         | some product =>
             replaceProduct
               { product with groupBuying :=
                   { product.groupBuying with currentParticipants := parts.length } } st
         | none => st
       let w1 : List WriteEvent := match productOpt with
         | some _ => [WriteEvent.productWrite g.productId parts.length]
         | none => []
       let g' := joinUpdatedDoc now uid g
       let notifs := joinNotifs now uid g
       let st2 := { st1 with notifications := st1.notifications ++ notifs }
       let st3 := replaceGroupBuy g' st2
       match findUser st3 uid, productOpt with
       | some user, some product =>
           let entry : ParticipationEntry :=
             { groupId := g.id, productId := g.productId, productName := g.productName,
               joinedAt := now, status := g'.status,
               potentialCarbonSaving :=
                 footprintOrDefault product.sustainability.carbonFootprint
                   * product.groupBuying.carbonSavingPercent / 100 }
           { result := Except.ok { groupBuy := g', message := "Successfully joined group buy" },
             state := replaceUser
               { user with groupBuyingParticipation := user.groupBuyingParticipation ++ [entry] }
               st3,
             writes := w1 ++ [WriteEvent.groupWrite g.id, WriteEvent.userWrite uid] }
       | _, _ =>
           { result := Except.ok { groupBuy := g', message := "Successfully joined group buy" },
             state := st3,
             writes := w1 ++ [WriteEvent.groupWrite g.id] }) := by
  unfold joinGroupBuyFromDoc
  rw [if_neg (by simp [ha]), if_neg he, if_neg hp]

lemma joinFromDoc_success_result (ha : g.status = Status.active) (he : ¬ g.expiryDate < now)
    (hp : ¬ alreadyParticipant g uid) :
    (joinGroupBuyFromDoc now uid g st).result = joinedOk (joinUpdatedDoc now uid g) := by
  rw [joinFromDoc_guards now uid g st ha he hp]
  simp only [joinedOk]
  split <;> rfl

lemma joinFromDoc_success_groupBuys (ha : g.status = Status.active) (he : ¬ g.expiryDate < now)
    (hp : ¬ alreadyParticipant g uid) :
    (joinGroupBuyFromDoc now uid g st).state.groupBuys =
      st.groupBuys.map
        (fun h => if h.id = g.id then joinUpdatedDoc now uid g else h) := by
  rw [joinFromDoc_guards now uid g st ha he hp]
  have hid : (joinUpdatedDoc now uid g).id = g.id := joinUpdatedDoc_id now uid g
  dsimp only
  rcases hq : findProduct st g.productId with _ | product <;> simp only [hq] <;> split <;>
    simp [replaceGroupBuy, hid]

lemma joinFromDoc_success_notifications (ha : g.status = Status.active)
    (he : ¬ g.expiryDate < now) (hp : ¬ alreadyParticipant g uid) :
    (joinGroupBuyFromDoc now uid g st).state.notifications =
      st.notifications ++ joinNotifs now uid g := by
  rw [joinFromDoc_guards now uid g st ha he hp]
  dsimp only
  rcases hq : findProduct st g.productId with _ | product <;> simp only [hq] <;> split <;> rfl

lemma joinFromDoc_success_nextGroupId (ha : g.status = Status.active)
    (he : ¬ g.expiryDate < now) (hp : ¬ alreadyParticipant g uid) :
    (joinGroupBuyFromDoc now uid g st).state.nextGroupId = st.nextGroupId := by
  rw [joinFromDoc_guards now uid g st ha he hp]
  dsimp only
  rcases hq : findProduct st g.productId with _ | product <;> simp only [hq] <;> split <;> rfl

end JoinSuccess

section JoinSuccessMore

variable (now uid : Nat) (g : GroupBuy) (st : St)

lemma joinUpdatedDoc_status (ha : g.status = Status.active) :
    (joinUpdatedDoc now uid g).status =
      (if g.threshold ≤ g.participants.length + 1 then Status.completed else Status.active) := by
  unfold joinUpdatedDoc
  dsimp only
  simp only [List.length_append, List.length_singleton]
  split <;> simp [ha]

lemma joinUpdatedDoc_completedAt (ha : g.completedAt = none) :
    (joinUpdatedDoc now uid g).completedAt =
      (if g.threshold ≤ g.participants.length + 1 then some now else none) := by
  unfold joinUpdatedDoc
  dsimp only
  simp only [List.length_append, List.length_singleton]
  split <;> simp [ha]

lemma joinFromDoc_success_products (ha : g.status = Status.active) (he : ¬ g.expiryDate < now)
    (hp : ¬ alreadyParticipant g uid) (product : Product)
    (hq : findProduct st g.productId = some product) :
    (joinGroupBuyFromDoc now uid g st).state.products =
      (replaceProduct
        { product with groupBuying :=
            { product.groupBuying with
              currentParticipants := g.participants.length + 1 } } st).products := by
  rw [joinFromDoc_guards now uid g st ha he hp]
  dsimp only
  simp only [hq]
  split <;> simp [List.length_append]

lemma joinFromDoc_success_products_none (ha : g.status = Status.active)
    (he : ¬ g.expiryDate < now) (hp : ¬ alreadyParticipant g uid)
    (hq : findProduct st g.productId = none) :
    (joinGroupBuyFromDoc now uid g st).state.products = st.products := by
  rw [joinFromDoc_guards now uid g st ha he hp]
  dsimp only
  simp only [hq]
  split <;> rfl

lemma joinFromDoc_success_users (ha : g.status = Status.active) (he : ¬ g.expiryDate < now)
    (hp : ¬ alreadyParticipant g uid) (product : Product)
    (hq : findProduct st g.productId = some product) (user : UserDoc)
    (hu : findUser st uid = some user) :
    (joinGroupBuyFromDoc now uid g st).state.users =
      st.users.map (fun v => if v.id = user.id then
        { user with groupBuyingParticipation := user.groupBuyingParticipation ++
            [{ groupId := g.id, productId := g.productId, productName := g.productName,
               joinedAt := now, status := (joinUpdatedDoc now uid g).status,
               potentialCarbonSaving :=
                 footprintOrDefault product.sustainability.carbonFootprint
                   * product.groupBuying.carbonSavingPercent / 100 }] }
        else v) := by
  rw [joinFromDoc_guards now uid g st ha he hp]
  dsimp only
  simp only [hq]
  unfold findUser at hu ⊢
  simp only [replaceGroupBuy_users, replaceProduct_users]
  rw [hu]
  rfl

lemma joinFromDoc_success_writes_head (ha : g.status = Status.active)
    (he : ¬ g.expiryDate < now) (hp : ¬ alreadyParticipant g uid) (product : Product)
    (hq : findProduct st g.productId = some product) :
    (joinGroupBuyFromDoc now uid g st).writes.head? =
      some (WriteEvent.productWrite g.productId (g.participants.length + 1)) := by
  rw [joinFromDoc_guards now uid g st ha he hp]
  dsimp only
  simp only [hq]
  split <;> simp [List.length_append]

end JoinSuccessMore

section WriteTraceLemmas

lemma userWriteAfterGroup_joinFromDoc (now uid : Nat) (g : GroupBuy) (st : St) :
    userWriteAfterGroupWrite false (joinGroupBuyFromDoc now uid g st).writes = true := by
  unfold joinGroupBuyFromDoc
  split
  · rfl
  · split
    · simp [userWriteAfterGroupWrite]
    · split
      · rfl
      · rcases hq : findProduct st g.productId with _ | product <;> simp only [hq] <;>
          split <;> simp [userWriteAfterGroupWrite]

lemma userWriteAfterGroup_join (now gid uid : Nat) (st : St) :
    userWriteAfterGroupWrite false (joinGroupBuy now gid uid st).writes = true := by
  unfold joinGroupBuy
  rcases hg : findGroupBuy st gid with _ | g
  · rfl
  · exact userWriteAfterGroup_joinFromDoc now uid g st

lemma userWriteAfterGroup_create (now pid uid : Nat) (st : St) :
    userWriteAfterGroupWrite false (createGroupBuy now pid uid st).writes = true := by
  unfold createGroupBuy
  rcases hq : findProduct st pid with _ | product
  · rfl
  · by_cases hen : product.groupBuying.enabled
    · simp only [hen, if_true]
      rcases ha : findActiveGroupBuy now pid st with _ | eg
      · dsimp only
        split <;> simp [userWriteAfterGroupWrite]
      · exact userWriteAfterGroup_join now eg.id uid st
    · simp [hen, userWriteAfterGroupWrite]

lemma createGroupBuy_create_writes_head (now pid uid : Nat) (st : St) (product : Product)
    (hq : findProduct st pid = some product) (hen : product.groupBuying.enabled = true)
    (hno : findActiveGroupBuy now pid st = none) :
    (createGroupBuy now pid uid st).writes.head? = some (WriteEvent.productWrite pid 1) := by
  unfold createGroupBuy
  simp only [hq, hen, if_true, hno]
  split <;> rfl

end WriteTraceLemmas

section BranchLemmas

variable (now uid : Nat) (g : GroupBuy) (st : St)

lemma joinFromDoc_invalid (hs : g.status ≠ Status.active) :
    joinGroupBuyFromDoc now uid g st =
      { result := Except.error (GBError.invalidState g.status), state := st, writes := [] } := by
  unfold joinGroupBuyFromDoc
  rw [if_pos hs]

lemma joinFromDoc_expired (ha : g.status = Status.active) (he : g.expiryDate < now) :
    joinGroupBuyFromDoc now uid g st =
      { result := Except.error GBError.expiredGroup,
        state := replaceGroupBuy { g with status := Status.expired } st,
        writes := [WriteEvent.groupWrite g.id] } := by
  unfold joinGroupBuyFromDoc
  rw [if_neg (by simp [ha]), if_pos he]

lemma joinFromDoc_already (ha : g.status = Status.active) (he : ¬ g.expiryDate < now)
    (hp : alreadyParticipant g uid) :
    joinGroupBuyFromDoc now uid g st =
      { result := alreadyOk g, state := st, writes := [] } := by
  unfold joinGroupBuyFromDoc
  rw [if_neg (by simp [ha]), if_neg he, if_pos hp]
  rfl

@[simp] lemma joinUpdatedDoc_productName :
    (joinUpdatedDoc now uid g).productName = g.productName := by
  unfold joinUpdatedDoc
  dsimp only
  split <;> rfl

@[simp] lemma joinUpdatedDoc_discountPercent :
    (joinUpdatedDoc now uid g).discountPercent = g.discountPercent := by
  unfold joinUpdatedDoc
  dsimp only
  split <;> rfl

lemma mkNotif_joinUpdatedDoc (p : Participant) :
    mkNotif (joinUpdatedDoc now uid g) p = mkNotif g p := by
  unfold mkNotif
  simp

end BranchLemmas

section SweepCounterLemmas

lemma findProduct_replace_self {st : St} {pid : Nat} {p p' : Product}
    (hp : findProduct st pid = some p) (hid : p'.id = pid) :
    findProduct (replaceProduct p' st) pid = some p' := by
  unfold findProduct at hp ⊢
  rw [replaceProduct_products]
  rw [find?_map_replace Product.id p' st.products pid p'.id hid hid, hp]
  rfl

lemma findProduct_replace_ne {st : St} {pid : Nat} {p' : Product}
    (hid : ¬ p'.id = pid) :
    findProduct (replaceProduct p' st) pid = findProduct st pid := by
  unfold findProduct
  rw [replaceProduct_products]
  exact find?_replace_ne_key Product.id p' st.products pid p'.id hid hid

lemma sweepOne_counter_self (st : St) (g1 : GroupBuy) {p : Product}
    (hq : findProduct st g1.productId = some p) :
    (findProduct (sweepOne st g1) g1.productId).map
      (fun q => q.groupBuying.currentParticipants) = some 0 := by
  have hid : p.id = g1.productId := by simpa using List.find?_some hq
  unfold sweepOne
  simp only [hq]
  unfold findProduct at hq ⊢
  simp only [replaceProduct_products, replaceGroupBuy_products]
  rw [find?_map_replace Product.id _ _ g1.productId p.id (by simpa using hid) hid, hq]
  rfl

lemma sweepOne_counter_zero (st : St) (g1 : GroupBuy) (pid : Nat)
    (h0 : (findProduct st pid).map (fun q => q.groupBuying.currentParticipants) = some 0) :
    (findProduct (sweepOne st g1) pid).map
      (fun q => q.groupBuying.currentParticipants) = some 0 := by
  unfold sweepOne
  rcases hq : findProduct st g1.productId with _ | p
  · simpa using h0
  · have hid : p.id = g1.productId := by simpa using List.find?_some hq
    simp only [hq]
    by_cases hpe : g1.productId = pid
    · subst hpe
      unfold findProduct at hq ⊢
      simp only [replaceProduct_products, replaceGroupBuy_products]
      rw [find?_map_replace Product.id _ _ g1.productId p.id (by simpa using hid) hid, hq]
      rfl
    · unfold findProduct at h0 ⊢
      simp only [replaceProduct_products, replaceGroupBuy_products]
      rw [find?_replace_ne_key Product.id _ _ pid p.id
        (by simp only []; intro hh; exact hpe (hid.symm.trans (by simpa using hh)))
        (fun hh => hpe (hid.symm.trans hh))]
      exact h0

lemma sweepOne_counter_isSome (st : St) (g1 : GroupBuy) (pid : Nat)
    (h0 : (findProduct st pid).isSome) :
    (findProduct (sweepOne st g1) pid).isSome := by
  unfold sweepOne
  rcases hq : findProduct st g1.productId with _ | p
  · simpa using h0
  · have hid : p.id = g1.productId := by simpa using List.find?_some hq
    simp only [hq]
    by_cases hpe : g1.productId = pid
    · subst hpe
      unfold findProduct at hq ⊢
      simp only [replaceProduct_products, replaceGroupBuy_products]
      rw [find?_map_replace Product.id _ _ g1.productId p.id (by simpa using hid) hid, hq]
      rfl
    · unfold findProduct at h0 ⊢
      simp only [replaceProduct_products, replaceGroupBuy_products]
      rw [find?_replace_ne_key Product.id _ _ pid p.id
        (by simp only []; intro hh; exact hpe (hid.symm.trans (by simpa using hh)))
        (fun hh => hpe (hid.symm.trans hh))]
      exact h0

lemma foldl_sweep_counter_zero (gs : List GroupBuy) (st : St) (pid : Nat)
    (h0 : (findProduct st pid).map (fun q => q.groupBuying.currentParticipants) = some 0) :
    (findProduct (gs.foldl sweepOne st) pid).map
      (fun q => q.groupBuying.currentParticipants) = some 0 := by
  induction gs generalizing st with
  | nil => simpa using h0
  | cons a t ih => exact ih (sweepOne st a) (sweepOne_counter_zero st a pid h0)

lemma foldl_sweep_counter_reset (gs : List GroupBuy) (st : St) (pid : Nat)
    (hmem : ∃ g1 ∈ gs, g1.productId = pid) (hs : (findProduct st pid).isSome) :
    (findProduct (gs.foldl sweepOne st) pid).map
      (fun q => q.groupBuying.currentParticipants) = some 0 := by
  induction gs generalizing st with
  | nil =>
      rcases hmem with ⟨g1, hg1, _⟩
      cases hg1
  | cons a t ih =>
      rcases hmem with ⟨g1, hg1, hpid⟩
      rcases List.mem_cons.mp hg1 with rfl | hg1'
      · rcases Option.isSome_iff_exists.mp hs with ⟨p, hp⟩
        subst hpid
        exact foldl_sweep_counter_zero t (sweepOne st g1) g1.productId
          (sweepOne_counter_self st g1 hp)
      · exact ih (sweepOne st a) ⟨g1, hg1', hpid⟩ (sweepOne_counter_isSome st a pid hs)

end SweepCounterLemmas

/-! ### Claim theorems -/

/-- C9: the carbon impact estimator is a pure function (deterministic by
construction), and on `participantsCount = 5`, baseline footprint 10 and
saving percent 15 it returns `productSaved = 7.5`, `shippingSaved = 8`,
`packagingSaved = 1`, `total = shippingSaved + productSaved = 15.5`, with
the packaging saving reported separately as materials saved. -/
theorem C9_carbon_estimator_values :
    (calculateGroupBuyImpactCore 5 (some 10) 15).productCarbonSavings = 7.5 ∧
    (calculateGroupBuyImpactCore 5 (some 10) 15).shippingEmissionsSaved = 8 ∧
    (calculateGroupBuyImpactCore 5 (some 10) 15).packagingSaved = 1 ∧
    (calculateGroupBuyImpactCore 5 (some 10) 15).totalCarbonSaved = 15.5 ∧
    (∀ n fp pct, (calculateGroupBuyImpactCore n fp pct).totalCarbonSaved =
        (calculateGroupBuyImpactCore n fp pct).shippingEmissionsSaved +
        (calculateGroupBuyImpactCore n fp pct).productCarbonSavings) ∧
    (∀ n fp pct, (calculateGroupBuyImpactCore n fp pct).totalMaterialsSaved =
        (calculateGroupBuyImpactCore n fp pct).packagingSaved) := by
  refine ⟨?_, ?_, ?_, ?_, fun n fp pct => rfl, fun n fp pct => rfl⟩ <;>
    simp [calculateGroupBuyImpactCore, footprintOrDefault] <;> norm_num

/-- C1 counterexample: in the reachable state `stT2b` — reached by user 100
creating the threshold-2 opportunity and user 101 joining, which completes
it — product 1 has no active opportunity, yet its participation counter is
2, not 0.  The claimed invariant fails immediately after a completing
`Join`. -/
theorem C1_counter_not_reset_after_completion :
    InitOk initT2 ∧ Reach initT2 stT2b ∧
    (∀ g ∈ stT2b.groupBuys, ¬ (g.productId = 1 ∧ g.status = Status.active)) ∧
    (findProduct stT2b 1).map (fun p => p.groupBuying.currentParticipants) = some 2 := by
  refine ⟨by decide, ?_, by decide, by decide⟩
  exact Reach.step (Reach.step Reach.refl (Step.createOrJoin 0 1 100 initT2))
    (Step.createOrJoin 1 1 101 stT2a)

/-- C2 counterexample: two `joinGroupBuy` calls race on the threshold-3
opportunity of `stT3a`: both execute their initial `findById` read (both
obtain `docT3`), then user 101's call runs to completion, then user 102's
call runs its remaining body against the already-moved state.  Both calls
return success, but the final participant list is `[100, 102]`: user 101's
join is lost, refuting linearizability of the check-then-act pattern. -/
theorem C2_concurrent_joins_lose_participant :
    InitOk initT3 ∧ Reach initT3 stT3a ∧
    findGroupBuy stT3a 0 = some docT3 ∧
    (joinGroupBuyFromDoc 1 101 docT3 stT3a).result =
      joinedOk { docT3 with
        participants := docT3.participants ++ [{ userId := 101, joinedAt := 1 }] } ∧
    (joinGroupBuyFromDoc 1 102 docT3 (joinGroupBuyFromDoc 1 101 docT3 stT3a).state).result =
      joinedOk { docT3 with
        participants := docT3.participants ++ [{ userId := 102, joinedAt := 1 }] } ∧
    (findGroupBuy (joinGroupBuyFromDoc 1 102 docT3
        (joinGroupBuyFromDoc 1 101 docT3 stT3a).state).state 0).map
      (fun g => g.participants.map (fun p => p.userId)) = some [100, 102] := by
  refine ⟨by decide, ?_, rfl, rfl, rfl, rfl⟩
  exact Reach.step Reach.refl (Step.createOrJoin 0 1 100 initT3)

/-- C3 counterexample: in the threshold-3 scenario user 101 joins second
(post-update participant count 2), but the participation record stores
`potentialCarbonSaving = footprint × percent / 100 = 1.5`, not the
count-dependent estimate `footprint × 2 × percent / 100 = 3` that the claim
describes; the source never multiplies by the participant count. -/
theorem C3_saving_ignores_participant_count :
    (findGroupBuy (joinGroupBuy 1 0 101 stT3a).state 0).map
        (fun g => g.participants.length) = some 2 ∧
    (findUser (joinGroupBuy 1 0 101 stT3a).state 101).map
        (fun u => u.groupBuyingParticipation.map
          (fun e => e.potentialCarbonSaving)) =
      some [footprintOrDefault (some 10) * 15 / 100] ∧
    footprintOrDefault (some 10) * 15 / 100 = 3 / 2 ∧
    specJoinCarbonEstimate 10 2 15 = 3 ∧ (3 / 2 : ℚ) ≠ 3 := by
  refine ⟨by decide, rfl, ?_, ?_, by norm_num⟩ <;>
    simp [footprintOrDefault, specJoinCarbonEstimate] <;> norm_num

/-- C4 counterexample: joining the stale threshold-3 opportunity at time 8
(expiry 7) marks it `expired` and fails with `Expired`, but performs none of
the sweeper's reconciliation: participant 100's user record keeps status
`active` and the product counter stays 1.  A subsequent sweep is a no-op
(it selects only `status = 'active'` documents), so those views stay stale
forever, contradicting the claimed sweeper-equivalent reconciliation. -/
theorem C4_expiry_join_skips_reconciliation :
    (joinGroupBuy 8 0 101 stT3a).result = Except.error GBError.expiredGroup ∧
    (findGroupBuy (joinGroupBuy 8 0 101 stT3a).state 0).map (fun g => g.status) =
      some Status.expired ∧
    (findUser (joinGroupBuy 8 0 101 stT3a).state 100).map
        (fun u => u.groupBuyingParticipation.map (fun e => e.status)) =
      some [Status.active] ∧
    (findProduct (joinGroupBuy 8 0 101 stT3a).state 1).map
        (fun p => p.groupBuying.currentParticipants) = some 1 ∧
    checkAndUpdateExpiredGroupBuys 9 (joinGroupBuy 8 0 101 stT3a).state =
      (0, (joinGroupBuy 8 0 101 stT3a).state) := by
  exact ⟨rfl, by decide, rfl, by decide, rfl⟩

/-- C7 counterexample: in the completed state `stT2b`, user 100 is already a
participant and the opportunity's state is `completed` (a valid state other
than already-expired), yet `joinGroupBuy` does not succeed idempotently: it
fails with `InvalidState('completed')`, because the status check precedes
the already-participant check. -/
theorem C7_completed_idempotent_join_fails :
    (findGroupBuy stT2b 0).map (fun g => (g.status, g.participants.map (fun p => p.userId))) =
      some (Status.completed, [100, 101]) ∧
    (joinGroupBuy 2 0 100 stT2b).result =
      Except.error (GBError.invalidState Status.completed) := by
  exact ⟨by decide, rfl⟩

/-- C8 counterexample: on both the create path and the join path the product
participation counter (a derived view) is saved *before* the opportunity
document's own write — the trace starts with a `productWrite` — so the
derived views are not written only after the opportunity write succeeded,
and a failure of the opportunity write would leave the counter already
updated. -/
theorem C8_counter_written_before_opportunity :
    (createGroupBuy 0 1 100 initT3).writes =
      [WriteEvent.productWrite 1 1, WriteEvent.groupWrite 0, WriteEvent.userWrite 100] ∧
    viewWritesAfterGroupWrite false (createGroupBuy 0 1 100 initT3).writes = false ∧
    (joinGroupBuy 1 0 101 stT3a).writes =
      [WriteEvent.productWrite 1 2, WriteEvent.groupWrite 0, WriteEvent.userWrite 101] ∧
    viewWritesAfterGroupWrite false (joinGroupBuy 1 0 101 stT3a).writes = false := by
  exact ⟨by decide, by decide, by decide, by decide⟩


section FindReplaceLemmas

lemma findGroupBuy_replace_ne {st : St} {gid : Nat} {g' : GroupBuy} (hne : ¬ g'.id = gid) :
    findGroupBuy (replaceGroupBuy g' st) gid = findGroupBuy st gid := by
  unfold findGroupBuy
  rw [replaceGroupBuy_groupBuys]
  exact find?_replace_ne_key GroupBuy.id g' st.groupBuys gid g'.id hne hne

lemma findGroupBuy_replace_self {st : St} {gid : Nat} {g g' : GroupBuy}
    (hg : findGroupBuy st gid = some g) (hid : g'.id = gid) :
    findGroupBuy (replaceGroupBuy g' st) gid = some g' := by
  unfold findGroupBuy at hg ⊢
  rw [replaceGroupBuy_groupBuys]
  rw [find?_map_replace GroupBuy.id g' st.groupBuys gid g'.id hid hid, hg]
  rfl

lemma findGroupBuy_sweepOne_ne (st : St) (g1 : GroupBuy) (gid : Nat) (hne : ¬ g1.id = gid) :
    findGroupBuy (sweepOne st g1) gid = findGroupBuy st gid := by
  unfold sweepOne
  rcases hq : findProduct st g1.productId with _ | p <;>
    simp only [hq, findGroupBuy_replaceProduct, findGroupBuy_setUsers] <;>
    exact findGroupBuy_replace_ne (by simpa using hne)

lemma foldl_sweep_findGroupBuy_ne (gs : List GroupBuy) (st : St) (gid : Nat)
    (h : ∀ g1 ∈ gs, ¬ g1.id = gid) :
    findGroupBuy (gs.foldl sweepOne st) gid = findGroupBuy st gid := by
  induction gs generalizing st with
  | nil => rfl
  | cons a t ih =>
      rw [List.foldl_cons, ih (sweepOne st a) (fun g1 hg1 => h g1 (List.mem_cons_of_mem a hg1))]
      exact findGroupBuy_sweepOne_ne st a gid (h a (List.mem_cons_self a t))

lemma createGroupBuy_create_products (now pid uid : Nat) (st : St) (product : Product)
    (hq : findProduct st pid = some product) (hen : product.groupBuying.enabled = true)
    (hno : findActiveGroupBuy now pid st = none) :
    (createGroupBuy now pid uid st).state.products =
      (replaceProduct { product with groupBuying :=
          { product.groupBuying with currentParticipants := 1 } } st).products := by
  unfold createGroupBuy
  simp only [hq, hen, if_true, hno]
  split <;> rfl

lemma findProduct_counter_replace (st : St) (pid : Nat) (product : Product) (n : Nat)
    (hq : findProduct st pid = some product) :
    (findProduct (replaceProduct { product with groupBuying :=
        { product.groupBuying with currentParticipants := n } } st) pid).map
      (fun q => q.groupBuying.currentParticipants) = some n := by
  have hid : product.id = pid := by simpa using List.find?_some hq
  rw [findProduct_replace_self hq (by simpa using hid)]
  rfl

end FindReplaceLemmas


/-- C7 (amended): the idempotent-success clause holds only for an `active`,
not-yet-expired opportunity: there a join by an existing participant returns
the opportunity unchanged with no state change and no writes (hence no
second participation record, no counter change, no notification).  For any
non-`active` status — including `completed` and `cancelled`, which the claim
covered — the call instead fails with `InvalidState(status)`, because the
status check precedes the already-participant check. -/
theorem C7_idempotent_active_join :
    (∀ now gid uid (st : St) (g : GroupBuy), findGroupBuy st gid = some g →
      g.status = Status.active → ¬ g.expiryDate < now → alreadyParticipant g uid →
      joinGroupBuy now gid uid st = { result := alreadyOk g, state := st, writes := [] }) ∧
    (∀ now gid uid (st : St) (g : GroupBuy), findGroupBuy st gid = some g →
      g.status ≠ Status.active →
      joinGroupBuy now gid uid st =
        { result := Except.error (GBError.invalidState g.status), state := st,
          writes := [] }) := by
  constructor
  · intro now gid uid st g hg ha he hp
    unfold joinGroupBuy
    rw [hg]
    exact joinFromDoc_already now uid g st ha he hp
  · intro now gid uid st g hg hs
    unfold joinGroupBuy
    rw [hg]
    exact joinFromDoc_invalid now uid g st hs

/-- Witness for C7: user 100 re-joining the active threshold-3 opportunity
succeeds idempotently; user 102 joining the completed threshold-2
opportunity fails with `InvalidState('completed')` even though user 102 is
not the issue — the status check fires first. -/
theorem C7_idempotent_active_join_witness :
    joinGroupBuy 1 0 100 stT3a = { result := alreadyOk docT3, state := stT3a, writes := [] } ∧
    joinGroupBuy 3 0 100 stT2b =
      { result := Except.error (GBError.invalidState docT2b.status), state := stT2b,
        writes := [] } :=
  ⟨C7_idempotent_active_join.1 1 0 100 stT3a docT3 rfl rfl (by decide) (by decide),
   C7_idempotent_active_join.2 3 0 100 stT2b docT2b rfl (by decide)⟩

/-- C4 (amended): a join against an active opportunity past its expiry marks
it `expired`, persists exactly that one document and fails with `Expired`,
and a subsequent sweep leaves the document untouched (it selects only
`status = 'active'` rows) — but, contrary to the claim, none of the
sweeper's view reconciliation happens: the users' participation records and
the product's counter are left exactly as they were. -/
theorem C4_expiry_join_marks_expired_only :
    ∀ now gid uid (st : St) (g : GroupBuy), findGroupBuy st gid = some g →
      g.status = Status.active → g.expiryDate < now →
      (joinGroupBuy now gid uid st).result = Except.error GBError.expiredGroup ∧
      (joinGroupBuy now gid uid st).state =
        replaceGroupBuy { g with status := Status.expired } st ∧
      (joinGroupBuy now gid uid st).state.users = st.users ∧
      (joinGroupBuy now gid uid st).state.products = st.products ∧
      (joinGroupBuy now gid uid st).state.notifications = st.notifications ∧
      ((st.groupBuys.map GroupBuy.id).Nodup → ∀ tNow,
        findGroupBuy
            (checkAndUpdateExpiredGroupBuys tNow (joinGroupBuy now gid uid st).state).2 gid =
          some { g with status := Status.expired }) := by
  intro now gid uid st g hg ha he
  have hj : joinGroupBuy now gid uid st =
      { result := Except.error GBError.expiredGroup,
        state := replaceGroupBuy { g with status := Status.expired } st,
        writes := [WriteEvent.groupWrite g.id] } := by
    unfold joinGroupBuy
    rw [hg]
    exact joinFromDoc_expired now uid g st ha he
  rw [hj]
  refine ⟨rfl, rfl, rfl, rfl, rfl, ?_⟩
  intro hnd tNow
  have hid : g.id = gid := by simpa using List.find?_some hg
  have hfind : findGroupBuy (replaceGroupBuy { g with status := Status.expired } st) gid =
      some { g with status := Status.expired } :=
    findGroupBuy_replace_self hg (by simpa using hid)
  unfold checkAndUpdateExpiredGroupBuys
  refine (foldl_sweep_findGroupBuy_ne _ _ gid ?_).trans hfind
  intro g1 hg1
  have hmem : g1 ∈ (replaceGroupBuy { g with status := Status.expired } st).groupBuys :=
    List.mem_of_mem_filter hg1
  have hact : g1.status = Status.active ∧ g1.expiryDate < tNow := by
    simpa using List.of_mem_filter hg1
  have hnd' : (((replaceGroupBuy { g with status := Status.expired } st).groupBuys).map
      GroupBuy.id).Nodup := by
    rw [replaceGroupBuy_groupBuys, map_key_replace]
    exact hnd
  have hmem2 : { g with status := Status.expired } ∈
      (replaceGroupBuy { g with status := Status.expired } st).groupBuys :=
    List.mem_of_find?_eq_some hfind
  intro hEq
  have hsame : g1 = { g with status := Status.expired } :=
    nodup_key_eq GroupBuy.id hnd' hmem hmem2 (by simpa [hEq] using hid.symm)
  rw [hsame] at hact
  simp at hact

/-- Witness for C4: the concrete stale join of the threshold-3 scenario. -/
theorem C4_expiry_join_marks_expired_only_witness :
    (joinGroupBuy 8 0 101 stT3a).result = Except.error GBError.expiredGroup ∧
    (joinGroupBuy 8 0 101 stT3a).state.users = stT3a.users :=
  ⟨(C4_expiry_join_marks_expired_only 8 0 101 stT3a docT3 rfl rfl (by decide)).1,
   (C4_expiry_join_marks_expired_only 8 0 101 stT3a docT3 rfl rfl (by decide)).2.2.1⟩

/-- C3 (amended): on a successful participant-appending join (with the
product and user present), the call returns the post-update document, and
the user's participation log gets exactly one appended entry whose `status`
is the opportunity's post-update status — that half of the claim holds.
Its `potentialCarbonSaving`, however, is
`footprint × carbonSavingPercent / 100`, a per-user constant that never
multiplies by the post-update participant count. -/
theorem C3_record_status_and_saving :
    ∀ now gid uid (st : St) (g : GroupBuy) (product : Product) (user : UserDoc),
      findGroupBuy st gid = some g → g.status = Status.active → ¬ g.expiryDate < now →
      ¬ alreadyParticipant g uid → findProduct st g.productId = some product →
      findUser st uid = some user →
      (joinGroupBuy now gid uid st).result = joinedOk (joinUpdatedDoc now uid g) ∧
      (joinGroupBuy now gid uid st).state.users =
        st.users.map (fun v => if v.id = user.id then
          { user with groupBuyingParticipation := user.groupBuyingParticipation ++
              [{ groupId := g.id, productId := g.productId, productName := g.productName,
                 joinedAt := now, status := (joinUpdatedDoc now uid g).status,
                 potentialCarbonSaving :=
                   footprintOrDefault product.sustainability.carbonFootprint
                     * product.groupBuying.carbonSavingPercent / 100 }] }
          else v) := by
  intro now gid uid st g product user hg ha he hp hq hu
  unfold joinGroupBuy
  rw [hg]
  exact ⟨joinFromDoc_success_result now uid g st ha he hp,
    joinFromDoc_success_users now uid g st ha he hp product hq user hu⟩

/-- Witness for C3: the second join of the threshold-3 scenario (post-update
count 2). -/
theorem C3_record_status_and_saving_witness :
    (joinGroupBuy 1 0 101 stT3a).result = joinedOk (joinUpdatedDoc 1 101 docT3) :=
  (C3_record_status_and_saving 1 0 101 stT3a docT3
    { id := 1, name := "Bamboo Brush",
      groupBuying := { enabled := true, threshold := 3, carbonSavingPercent := 15,
                       discountPercent := 10, expiryDays := 7, currentParticipants := 1 },
      sustainability := { carbonFootprint := some 10 } }
    { id := 101, groupBuyingParticipation := [] }
    rfl rfl (by decide) (by decide) rfl rfl).1

/-- C8 (amended): what actually holds of the write order is the half the
claim makes about the user log — in every `createGroupBuy`/`joinGroupBuy`
execution a `userWrite` can only appear after a `groupWrite` — while the
product-counter portion of the claim is inverted: on both the create path
and the participant-appending join path the very first persisted write is
the product counter, before the opportunity document is saved. -/
theorem C8_user_log_after_opportunity_write :
    (∀ now gid uid (st : St),
      userWriteAfterGroupWrite false (joinGroupBuy now gid uid st).writes = true) ∧
    (∀ now pid uid (st : St),
      userWriteAfterGroupWrite false (createGroupBuy now pid uid st).writes = true) ∧
    (∀ now pid uid (st : St) (product : Product), findProduct st pid = some product →
      product.groupBuying.enabled = true → findActiveGroupBuy now pid st = none →
      (createGroupBuy now pid uid st).writes.head? = some (WriteEvent.productWrite pid 1)) ∧
    (∀ now gid uid (st : St) (g : GroupBuy) (product : Product),
      findGroupBuy st gid = some g → g.status = Status.active → ¬ g.expiryDate < now →
      ¬ alreadyParticipant g uid → findProduct st g.productId = some product →
      (joinGroupBuy now gid uid st).writes.head? =
        some (WriteEvent.productWrite g.productId (g.participants.length + 1))) := by
  refine ⟨fun now gid uid st => userWriteAfterGroup_join now gid uid st,
    fun now pid uid st => userWriteAfterGroup_create now pid uid st,
    fun now pid uid st product hq hen hno =>
      createGroupBuy_create_writes_head now pid uid st product hq hen hno,
    fun now gid uid st g product hg ha he hp hq => ?_⟩
  unfold joinGroupBuy
  rw [hg]
  exact joinFromDoc_success_writes_head now uid g st ha he hp product hq

/-- Witness for C8: the create call of the threshold-3 scenario writes the
product counter first. -/
theorem C8_user_log_after_opportunity_write_witness :
    (createGroupBuy 0 1 100 initT3).writes.head? = some (WriteEvent.productWrite 1 1) :=
  C8_user_log_after_opportunity_write.2.2.1 0 1 100 initT3 productT3 rfl rfl rfl

/-- C1 (amended): the product participation counter tracks the writes the
source actually performs: it is set to 1 by the create path, to the new
participant count by a participant-appending join (including the join that
completes the opportunity — it is *not* reset to 0 then), and to 0 for
every opportunity reconciled by the sweeper.  The claim's
"zero when no opportunity is active" clause is what fails. -/
theorem C1_counter_tracks_writes :
    (∀ now pid uid (st : St) (product : Product), findProduct st pid = some product →
      product.groupBuying.enabled = true → findActiveGroupBuy now pid st = none →
      (findProduct (createGroupBuy now pid uid st).state pid).map
        (fun q => q.groupBuying.currentParticipants) = some 1) ∧
    (∀ now gid uid (st : St) (g : GroupBuy) (product : Product),
      findGroupBuy st gid = some g → g.status = Status.active → ¬ g.expiryDate < now →
      ¬ alreadyParticipant g uid → findProduct st g.productId = some product →
      (findProduct (joinGroupBuy now gid uid st).state g.productId).map
        (fun q => q.groupBuying.currentParticipants) = some (g.participants.length + 1)) ∧
    (∀ (now : Nat) (st : St), ∀ g ∈ st.groupBuys, g.status = Status.active →
      g.expiryDate < now → (findProduct st g.productId).isSome →
      (findProduct (checkAndUpdateExpiredGroupBuys now st).2 g.productId).map
        (fun q => q.groupBuying.currentParticipants) = some 0) := by
  refine ⟨?_, ?_, ?_⟩
  · intro now pid uid st product hq hen hno
    have hprods := createGroupBuy_create_products now pid uid st product hq hen hno
    have heq : findProduct (createGroupBuy now pid uid st).state pid =
        findProduct (replaceProduct { product with groupBuying :=
          { product.groupBuying with currentParticipants := 1 } } st) pid := by
      unfold findProduct
      rw [hprods]
    rw [heq]
    exact findProduct_counter_replace st pid product 1 hq
  · intro now gid uid st g product hg ha he hp hq
    unfold joinGroupBuy
    rw [hg]
    have hprods := joinFromDoc_success_products now uid g st ha he hp product hq
    have heq : findProduct (joinGroupBuyFromDoc now uid g st).state g.productId =
        findProduct (replaceProduct { product with groupBuying :=
          { product.groupBuying with currentParticipants := g.participants.length + 1 } } st)
          g.productId := by
      unfold findProduct
      rw [hprods]
    rw [heq]
    exact findProduct_counter_replace st g.productId product (g.participants.length + 1) hq
  · intro now st g hmem hact hexp hsome
    exact foldl_sweep_counter_reset _ st g.productId
      ⟨g, List.mem_filter.mpr ⟨hmem, by simp [hact, hexp]⟩, rfl⟩ hsome

/-- Witness for C1: creating the threshold-3 opportunity sets the counter to
1; sweeping the stale state at time 9 resets it to 0. -/
theorem C1_counter_tracks_writes_witness :
    (findProduct (createGroupBuy 0 1 100 initT3).state 1).map
      (fun q => q.groupBuying.currentParticipants) = some 1 ∧
    (findProduct (checkAndUpdateExpiredGroupBuys 9 stT3a).2 1).map
      (fun q => q.groupBuying.currentParticipants) = some 0 :=
  ⟨C1_counter_tracks_writes.1 0 1 100 initT3 productT3 rfl rfl rfl,
   by
    have := C1_counter_tracks_writes.2.2 9 stT3a docT3 (by decide) rfl (by decide) (by decide)
    simpa using this⟩


section KeyedCShape

variable {A : Type} (key : A → Nat)

lemma map_key_replace_c (x : A) (l : List A) (c : Nat) (hc : key x = c) :
    (l.map (fun h => if key h = c then x else h)).map key = l.map key := by
  rw [List.map_map]
  apply List.map_congr_left
  intro a _
  by_cases h : key a = c
  · simp [h, hc]
  · simp [h]

lemma mem_map_replace_c_self {x : A} {l : List A} {c : Nat} {a : A}
    (ha : a ∈ l) (hne : ¬ key a = c) :
    a ∈ l.map (fun h => if key h = c then x else h) := by
  refine List.mem_map.mpr ⟨a, ha, ?_⟩
  simp [hne]

lemma mem_map_replace_c_elim {x : A} {l : List A} {c : Nat} {a : A}
    (h : a ∈ l.map (fun h => if key h = c then x else h)) :
    a = x ∨ (a ∈ l ∧ ¬ key a = c) := by
  rcases List.mem_map.mp h with ⟨b, hb, hba⟩
  by_cases hk : key b = c
  · simp only [hk, if_pos] at hba
    exact Or.inl hba.symm
  · simp only [hk, if_neg, not_false_iff] at hba
    exact Or.inr ⟨hba ▸ hb, hba ▸ hk⟩

end KeyedCShape

section NotifLemmas

lemma notifsFor_append (ns1 ns2 : List NotificationEvent) (gid : Nat) :
    notifsFor (ns1 ++ ns2) gid = notifsFor ns1 gid ++ notifsFor ns2 gid := by
  unfold notifsFor
  exact List.filter_append ns1 ns2

lemma notifsFor_joinNotifs_self (now uid : Nat) (g : GroupBuy) :
    notifsFor (joinNotifs now uid g) g.id = joinNotifs now uid g := by
  unfold notifsFor joinNotifs
  dsimp only
  split
  · apply List.filter_eq_self.mpr
    intro n hn
    rcases List.mem_map.mp hn with ⟨p, _, rfl⟩
    simp [mkNotif]
  · rfl

lemma notifsFor_joinNotifs_ne (now uid : Nat) (g : GroupBuy) (gid : Nat)
    (hne : ¬ g.id = gid) :
    notifsFor (joinNotifs now uid g) gid = [] := by
  unfold notifsFor joinNotifs
  dsimp only
  split
  · apply List.filter_eq_nil_iff.mpr
    intro n hn
    rcases List.mem_map.mp hn with ⟨p, _, rfl⟩
    simp [mkNotif, hne]
  · rfl

lemma joinNotifs_reached (now uid : Nat) (g : GroupBuy)
    (h : g.threshold ≤ g.participants.length + 1) :
    joinNotifs now uid g =
      (g.participants ++ [({ userId := uid, joinedAt := now } : Participant)]).map
        (mkNotif g) := by
  unfold joinNotifs
  simp only [List.length_append, List.length_singleton]
  rw [if_pos h]

lemma joinNotifs_below (now uid : Nat) (g : GroupBuy)
    (h : g.participants.length + 1 < g.threshold) :
    joinNotifs now uid g = [] := by
  unfold joinNotifs
  simp only [List.length_append, List.length_singleton]
  rw [if_neg (by omega)]

end NotifLemmas

section WfLemmas

lemma gbwf_joinUpdatedDoc (now uid : Nat) (g : GroupBuy) (h : GBWf g)
    (ha : g.status = Status.active) (hp : ¬ alreadyParticipant g uid) :
    GBWf (joinUpdatedDoc now uid g) := by
  have hlt := (h.active_bounds ha).1
  have hca := (h.active_bounds ha).2
  have huid : uid ∉ g.participants.map Participant.userId := by
    intro hmem
    rcases List.mem_map.mp hmem with ⟨p, hp1, hp2⟩
    exact hp ⟨p, hp1, hp2⟩
  refine ⟨?_, ?_, ?_, ?_, ?_⟩
  · rw [joinUpdatedDoc_threshold]
    exact h.threshold_ge
  · rw [joinUpdatedDoc_participants, List.map_append]
    simp [List.nodup_append, h.usersNodup, huid]
  · rw [joinUpdatedDoc_participants]
    simp
  · intro hact
    rw [joinUpdatedDoc_status now uid g ha] at hact
    by_cases hth : g.threshold ≤ g.participants.length + 1
    · rw [if_pos hth] at hact
      cases hact
    · rw [joinUpdatedDoc_participants, joinUpdatedDoc_threshold,
        joinUpdatedDoc_completedAt now uid g hca, if_neg hth]
      simp only [List.length_append, List.length_singleton]
      exact ⟨Nat.lt_of_not_le hth, trivial⟩
  · intro hc
    rw [joinUpdatedDoc_status now uid g ha] at hc
    by_cases hth : g.threshold ≤ g.participants.length + 1
    · rw [joinUpdatedDoc_participants, joinUpdatedDoc_threshold,
        joinUpdatedDoc_completedAt now uid g hca, if_pos hth]
      simp only [List.length_append, List.length_singleton]
      exact ⟨Nat.le_antisymm (Nat.succ_le_of_lt hlt) hth, now, rfl⟩
    · rw [if_neg hth] at hc
      cases hc

lemma gbwf_expired (g : GroupBuy) (h : GBWf g) : GBWf { g with status := Status.expired } := by
  refine ⟨h.threshold_ge, h.usersNodup, h.participants_ne, ?_, ?_⟩
  · intro hact
    cases hact
  · intro hc
    cases hc

end WfLemmas

section InvTransfer

lemma inv_setUsers (st : St) (us : List UserDoc) (hInv : Inv st) :
    Inv { st with users := us } :=
  ⟨hInv.prodThresholds, hInv.gbWf, hInv.idsNodup, hInv.idsLt, hInv.notifLt,
    hInv.notifCompleted⟩

lemma inv_replaceUser (u : UserDoc) (st : St) (hInv : Inv st) : Inv (replaceUser u st) :=
  ⟨hInv.prodThresholds, hInv.gbWf, hInv.idsNodup, hInv.idsLt, hInv.notifLt,
    hInv.notifCompleted⟩

lemma inv_replaceCounter (st : St) (hInv : Inv st) (product : Product) (n : Nat)
    (hmem : product ∈ st.products) :
    Inv (replaceProduct { product with groupBuying :=
        { product.groupBuying with currentParticipants := n } } st) := by
  refine ⟨?_, hInv.gbWf, hInv.idsNodup, hInv.idsLt, hInv.notifLt, hInv.notifCompleted⟩
  intro q hq
  rw [replaceProduct_products] at hq
  rcases mem_map_replace_elim Product.id hq with rfl | ⟨hq', _⟩
  · exact hInv.prodThresholds product hmem
  · exact hInv.prodThresholds q hq'

lemma inv_replaceGroupBuy_expired (st : St) (hInv : Inv st) (g0 : GroupBuy)
    (hg0 : g0 ∈ st.groupBuys) (ha : g0.status = Status.active) :
    Inv (replaceGroupBuy { g0 with status := Status.expired } st) := by
  have hwf := hInv.gbWf g0 hg0
  refine ⟨hInv.prodThresholds, ?_, ?_, ?_, hInv.notifLt, ?_⟩
  · intro g hg
    rw [replaceGroupBuy_groupBuys] at hg
    rcases mem_map_replace_elim GroupBuy.id hg with rfl | ⟨hg', _⟩
    · exact gbwf_expired g0 hwf
    · exact hInv.gbWf g hg'
  · rw [replaceGroupBuy_groupBuys, map_key_replace]
    exact hInv.idsNodup
  · intro g hg
    rw [replaceGroupBuy_groupBuys] at hg
    rcases mem_map_replace_elim GroupBuy.id hg with rfl | ⟨hg', _⟩
    · exact hInv.idsLt g0 hg0
    · exact hInv.idsLt g hg'
  · intro g hg
    rw [replaceGroupBuy_groupBuys] at hg
    rcases mem_map_replace_elim GroupBuy.id hg with rfl | ⟨hg', _⟩
    · have h0 := hInv.notifCompleted g0 hg0
      rw [ha] at h0
      simp only [reduceCtorEq, if_false] at h0
      show notifsFor st.notifications g0.id = _
      rw [h0]
      simp
    · exact hInv.notifCompleted g hg'

end InvTransfer

section CreateProjections

variable (now pid uid : Nat) (st : St) (product : Product)

lemma createGroupBuy_create_groupBuys (hq : findProduct st pid = some product)
    (hen : product.groupBuying.enabled = true) (hno : findActiveGroupBuy now pid st = none) :
    (createGroupBuy now pid uid st).state.groupBuys =
      st.groupBuys ++ [newGroupBuyDoc now pid uid product st.nextGroupId] := by
  unfold createGroupBuy
  simp only [hq, hen, if_true, hno]
  split <;> rfl

lemma createGroupBuy_create_nextGroupId (hq : findProduct st pid = some product)
    (hen : product.groupBuying.enabled = true) (hno : findActiveGroupBuy now pid st = none) :
    (createGroupBuy now pid uid st).state.nextGroupId = st.nextGroupId + 1 := by
  unfold createGroupBuy
  simp only [hq, hen, if_true, hno]
  split <;> rfl

lemma createGroupBuy_create_notifications (hq : findProduct st pid = some product)
    (hen : product.groupBuying.enabled = true) (hno : findActiveGroupBuy now pid st = none) :
    (createGroupBuy now pid uid st).state.notifications = st.notifications := by
  unfold createGroupBuy
  simp only [hq, hen, if_true, hno]
  split <;> rfl

end CreateProjections

section SweepProjections

lemma sweepOne_groupBuys (st : St) (g1 : GroupBuy) :
    (sweepOne st g1).groupBuys =
      st.groupBuys.map
        (fun h => if h.id = g1.id then { g1 with status := Status.expired } else h) := by
  unfold sweepOne
  rcases hq : findProduct st g1.productId with _ | p <;> simp only [hq] <;> rfl

lemma sweepOne_notifications (st : St) (g1 : GroupBuy) :
    (sweepOne st g1).notifications = st.notifications := by
  unfold sweepOne
  rcases hq : findProduct st g1.productId with _ | p <;> simp only [hq] <;> rfl

end SweepProjections

section InvPreservation

lemma joinNotifs_cases (now uid : Nat) (g : GroupBuy) :
    joinNotifs now uid g = [] ∨
      joinNotifs now uid g =
        (g.participants ++ [({ userId := uid, joinedAt := now } : Participant)]).map
          (mkNotif g) := by
  unfold joinNotifs
  dsimp only
  split
  · exact Or.inr rfl
  · exact Or.inl rfl

lemma inv_joinFromDoc (now uid : Nat) (g0 : GroupBuy) (st : St) (hInv : Inv st)
    (hg0 : g0 ∈ st.groupBuys) : Inv (joinGroupBuyFromDoc now uid g0 st).state := by
  by_cases hs : g0.status = Status.active
  · by_cases he : g0.expiryDate < now
    · rw [joinFromDoc_expired now uid g0 st hs he]
      exact inv_replaceGroupBuy_expired st hInv g0 hg0 hs
    · by_cases hp : alreadyParticipant g0 uid
      · rw [joinFromDoc_already now uid g0 st hs he hp]
        exact hInv
      · have hgbs := joinFromDoc_success_groupBuys now uid g0 st hs he hp
        have hns := joinFromDoc_success_notifications now uid g0 st hs he hp
        have hnid := joinFromDoc_success_nextGroupId now uid g0 st hs he hp
        have hwf' := gbwf_joinUpdatedDoc now uid g0 (hInv.gbWf g0 hg0) hs hp
        have hid' : (joinUpdatedDoc now uid g0).id = g0.id := joinUpdatedDoc_id now uid g0
        refine ⟨?_, ?_, ?_, ?_, ?_, ?_⟩
        · rcases hq : findProduct st g0.productId with _ | product
          · rw [joinFromDoc_success_products_none now uid g0 st hs he hp hq]
            exact hInv.prodThresholds
          · intro q hqm
            rw [joinFromDoc_success_products now uid g0 st hs he hp product hq,
              replaceProduct_products] at hqm
            rcases mem_map_replace_elim Product.id hqm with rfl | ⟨hq', _⟩
            · exact hInv.prodThresholds product (List.mem_of_find?_eq_some hq)
            · exact hInv.prodThresholds q hq'
        · intro g hg
          rw [hgbs] at hg
          rcases mem_map_replace_c_elim GroupBuy.id hg with rfl | ⟨hg', _⟩
          · exact hwf'
          · exact hInv.gbWf g hg'
        · rw [hgbs, map_key_replace_c GroupBuy.id _ _ _ hid']
          exact hInv.idsNodup
        · intro g hg
          rw [hgbs] at hg
          rw [hnid]
          rcases mem_map_replace_c_elim GroupBuy.id hg with rfl | ⟨hg', _⟩
          · rw [hid']
            exact hInv.idsLt g0 hg0
          · exact hInv.idsLt g hg'
        · intro n hn
          rw [hns] at hn
          rw [hnid]
          rcases List.mem_append.mp hn with hn1 | hn2
          · exact hInv.notifLt n hn1
          · rcases joinNotifs_cases now uid g0 with hcase | hcase
            · rw [hcase] at hn2
              cases hn2
            · rw [hcase] at hn2
              rcases List.mem_map.mp hn2 with ⟨p, _, rfl⟩
              show (mkNotif g0 p).groupId < st.nextGroupId
              exact hInv.idsLt g0 hg0
        · intro g hg
          rw [hgbs] at hg
          rw [hns]
          rcases mem_map_replace_c_elim GroupBuy.id hg with rfl | ⟨hg', hne⟩
          · rw [notifsFor_append]
            have h0 : notifsFor st.notifications (joinUpdatedDoc now uid g0).id = [] := by
              rw [hid']
              have hc0 := hInv.notifCompleted g0 hg0
              rw [hs] at hc0
              simpa using hc0
            rw [h0, List.nil_append, hid', notifsFor_joinNotifs_self,
              joinUpdatedDoc_status now uid g0 hs, joinUpdatedDoc_participants]
            by_cases hth : g0.threshold ≤ g0.participants.length + 1
            · rw [if_pos hth, if_pos rfl, joinNotifs_reached now uid g0 hth]
              apply List.map_congr_left
              intro p _
              exact (mkNotif_joinUpdatedDoc now uid g0 p).symm
            · rw [if_neg hth, if_neg (by simp), joinNotifs_below now uid g0
                (Nat.lt_of_not_le hth)]
          · rw [notifsFor_append,
              notifsFor_joinNotifs_ne now uid g0 g.id (fun hh => hne hh.symm),
              List.append_nil]
            exact hInv.notifCompleted g hg'
  · rw [joinFromDoc_invalid now uid g0 st hs]
    exact hInv

lemma inv_join (now gid uid : Nat) (st : St) (hInv : Inv st) :
    Inv (joinGroupBuy now gid uid st).state := by
  unfold joinGroupBuy
  rcases hg : findGroupBuy st gid with _ | g0
  · exact hInv
  · exact inv_joinFromDoc now uid g0 st hInv (List.mem_of_find?_eq_some hg)

lemma inv_create (now pid uid : Nat) (st : St) (hInv : Inv st) :
    Inv (createGroupBuy now pid uid st).state := by
  rcases hq : findProduct st pid with _ | product
  · unfold createGroupBuy
    simp only [hq]
    exact hInv
  · by_cases hen : product.groupBuying.enabled = true
    · rcases hact : findActiveGroupBuy now pid st with _ | eg
      · have h1 := createGroupBuy_create_groupBuys now pid uid st product hq hen hact
        have h2 := createGroupBuy_create_nextGroupId now pid uid st product hq hen hact
        have h3 := createGroupBuy_create_notifications now pid uid st product hq hen hact
        have h4 := createGroupBuy_create_products now pid uid st product hq hen hact
        have hpmem := List.mem_of_find?_eq_some hq
        have hth : 2 ≤ product.groupBuying.threshold := hInv.prodThresholds product hpmem
        refine ⟨?_, ?_, ?_, ?_, ?_, ?_⟩
        · intro q hqm
          rw [h4, replaceProduct_products] at hqm
          rcases mem_map_replace_elim Product.id hqm with rfl | ⟨hq', _⟩
          · exact hth
          · exact hInv.prodThresholds q hq'
        · intro g hg
          rw [h1] at hg
          rcases List.mem_append.mp hg with hg' | hg'
          · exact hInv.gbWf g hg'
          · rcases List.mem_singleton.mp hg' with rfl
            refine ⟨hth, by simp [newGroupBuyDoc], by simp [newGroupBuyDoc], ?_, ?_⟩
            · intro _
              refine ⟨?_, rfl⟩
              show (1 : Nat) < product.groupBuying.threshold
              omega
            · intro hc
              simp [newGroupBuyDoc] at hc
        · rw [h1, List.map_append]
          have hnotin : st.nextGroupId ∉ st.groupBuys.map GroupBuy.id := by
            intro hmem
            rcases List.mem_map.mp hmem with ⟨g, hgm, hgid⟩
            exact absurd (hgid ▸ hInv.idsLt g hgm) (lt_irrefl _)
          simp [List.nodup_append, hInv.idsNodup, hnotin, newGroupBuyDoc]
        · intro g hg
          rw [h1] at hg
          rw [h2]
          rcases List.mem_append.mp hg with hg' | hg'
          · exact Nat.lt_succ_of_lt (hInv.idsLt g hg')
          · rcases List.mem_singleton.mp hg' with rfl
            show st.nextGroupId < st.nextGroupId + 1
            exact Nat.lt_succ_self st.nextGroupId
        · intro n hn
          rw [h3] at hn
          rw [h2]
          exact Nat.lt_succ_of_lt (hInv.notifLt n hn)
        · intro g hg
          rw [h1] at hg
          rw [h3]
          rcases List.mem_append.mp hg with hg' | hg'
          · exact hInv.notifCompleted g hg'
          · rcases List.mem_singleton.mp hg' with rfl
            have hnil : notifsFor st.notifications
                (newGroupBuyDoc now pid uid product st.nextGroupId).id = [] := by
              unfold notifsFor
              apply List.filter_eq_nil_iff.mpr
              intro n hn
              have := hInv.notifLt n hn
              simp only [newGroupBuyDoc, decide_eq_true_eq]
              omega
            rw [hnil, if_neg (by simp [newGroupBuyDoc])]
      · unfold createGroupBuy
        simp only [hq, hen, if_true, hact]
        exact inv_join now eg.id uid st hInv
    · have hen' : product.groupBuying.enabled = false := by
        revert hen
        cases product.groupBuying.enabled <;> simp
      unfold createGroupBuy
      simp only [hq, hen', Bool.false_eq_true, if_false]
      exact hInv

lemma inv_sweepOne (st : St) (hInv : Inv st) (g1 : GroupBuy) (hg1 : g1 ∈ st.groupBuys)
    (ha : g1.status = Status.active) : Inv (sweepOne st g1) := by
  unfold sweepOne
  rcases hq : findProduct st g1.productId with _ | product <;> simp only [hq]
  · exact inv_setUsers _ _ (inv_replaceGroupBuy_expired st hInv g1 hg1 ha)
  · exact inv_replaceCounter _
      (inv_setUsers _ _ (inv_replaceGroupBuy_expired st hInv g1 hg1 ha)) product 0
      (List.mem_of_find?_eq_some hq)

lemma inv_foldl_sweep (gs : List GroupBuy) (st : St) (hInv : Inv st)
    (hmem : ∀ g ∈ gs, g ∈ st.groupBuys ∧ g.status = Status.active)
    (hnd : (gs.map GroupBuy.id).Nodup) : Inv (gs.foldl sweepOne st) := by
  induction gs generalizing st with
  | nil => exact hInv
  | cons a t ih =>
      rw [List.foldl_cons]
      have hma := hmem a (List.mem_cons_self a t)
      simp only [List.map_cons, List.nodup_cons] at hnd
      refine ih (sweepOne st a) (inv_sweepOne st hInv a hma.1 hma.2) ?_ hnd.2
      intro g hg
      have hm := hmem g (List.mem_cons_of_mem a hg)
      have hne : ¬ g.id = a.id := by
        intro hEq
        exact hnd.1 (hEq ▸ List.mem_map_of_mem GroupBuy.id hg)
      refine ⟨?_, hm.2⟩
      rw [sweepOne_groupBuys]
      exact mem_map_replace_c_self GroupBuy.id hm.1 hne

lemma inv_sweep (now : Nat) (st : St) (hInv : Inv st) :
    Inv (checkAndUpdateExpiredGroupBuys now st).2 := by
  apply inv_foldl_sweep _ _ hInv
  · intro g hg
    refine ⟨List.mem_of_mem_filter hg, ?_⟩
    exact (by simp at hg; exact hg.2.1 :
      g.status = Status.active)
  · exact List.Nodup.sublist ((List.filter_sublist _).map GroupBuy.id) hInv.idsNodup

lemma inv_step {st st' : St} (hInv : Inv st) (h : Step st st') : Inv st' := by
  cases h with
  | createOrJoin now pid uid st => exact inv_create now pid uid st hInv
  | join now gid uid st => exact inv_join now gid uid st hInv
  | sweep now st => exact inv_sweep now st hInv

lemma inv_init (st : St) (h : InitOk st) : Inv st := by
  obtain ⟨h1, h2, h3⟩ := h
  refine ⟨h3, ?_, ?_, ?_, ?_, ?_⟩ <;> simp [h1, h2]

lemma reach_inv {st0 st : St} (h0 : InitOk st0) (hr : Reach st0 st) : Inv st := by
  induction hr with
  | refl => exact inv_init st0 h0
  | step hr hs ih => exact inv_step ih hs

end InvPreservation

section NonActivePreservation

lemma mem_join_nonactive (now gid uid : Nat) (st : St) (hInv : Inv st) (g : GroupBuy)
    (hg : g ∈ st.groupBuys) (hna : g.status ≠ Status.active) :
    g ∈ (joinGroupBuy now gid uid st).state.groupBuys := by
  unfold joinGroupBuy
  rcases hf : findGroupBuy st gid with _ | g0
  · exact hg
  · show g ∈ (joinGroupBuyFromDoc now uid g0 st).state.groupBuys
    have hg0 : g0 ∈ st.groupBuys := List.mem_of_find?_eq_some hf
    by_cases hs : g0.status = Status.active
    · have hne : ¬ g.id = g0.id := by
        intro hEq
        exact hna (by rw [nodup_key_eq GroupBuy.id hInv.idsNodup hg hg0 hEq]; exact hs)
      by_cases he : g0.expiryDate < now
      · rw [joinFromDoc_expired now uid g0 st hs he, replaceGroupBuy_groupBuys]
        exact mem_map_replace_self GroupBuy.id hg (by simpa using hne)
      · by_cases hp : alreadyParticipant g0 uid
        · rw [joinFromDoc_already now uid g0 st hs he hp]
          exact hg
        · rw [joinFromDoc_success_groupBuys now uid g0 st hs he hp]
          exact mem_map_replace_c_self GroupBuy.id hg hne
    · rw [joinFromDoc_invalid now uid g0 st hs]
      exact hg

lemma mem_create_nonactive (now pid uid : Nat) (st : St) (hInv : Inv st) (g : GroupBuy)
    (hg : g ∈ st.groupBuys) (hna : g.status ≠ Status.active) :
    g ∈ (createGroupBuy now pid uid st).state.groupBuys := by
  rcases hq : findProduct st pid with _ | product
  · unfold createGroupBuy
    simp only [hq]
    exact hg
  · by_cases hen : product.groupBuying.enabled = true
    · rcases hact : findActiveGroupBuy now pid st with _ | eg
      · rw [createGroupBuy_create_groupBuys now pid uid st product hq hen hact]
        exact List.mem_append_left _ hg
      · unfold createGroupBuy
        simp only [hq, hen, if_true, hact]
        exact mem_join_nonactive now eg.id uid st hInv g hg hna
    · have hen' : product.groupBuying.enabled = false := by
        revert hen
        cases product.groupBuying.enabled <;> simp
      unfold createGroupBuy
      simp only [hq, hen', Bool.false_eq_true, if_false]
      exact hg

lemma mem_sweep_nonactive (now : Nat) (st : St) (hInv : Inv st) (g : GroupBuy)
    (hg : g ∈ st.groupBuys) (hna : g.status ≠ Status.active) :
    g ∈ (checkAndUpdateExpiredGroupBuys now st).2.groupBuys := by
  have hfold : ∀ (gs : List GroupBuy) (s : St), (∀ g1 ∈ gs, ¬ g1.id = g.id) →
      g ∈ s.groupBuys → g ∈ (gs.foldl sweepOne s).groupBuys := by
    intro gs
    induction gs with
    | nil => intro s _ hgs; exact hgs
    | cons a t ih =>
        intro s hne hgs
        rw [List.foldl_cons]
        refine ih (sweepOne s a) (fun g1 h1 => hne g1 (List.mem_cons_of_mem a h1)) ?_
        rw [sweepOne_groupBuys]
        exact mem_map_replace_c_self GroupBuy.id hgs
          (fun hEq => hne a (List.mem_cons_self a t) hEq.symm)
  apply hfold _ st ?_ hg
  intro g1 h1
  have hm := List.mem_of_mem_filter h1
  have hact : g1.status = Status.active :=
    (by simpa using List.of_mem_filter h1 :
      g1.status = Status.active ∧ g1.expiryDate < now).1
  intro hEq
  have : g1 = g := nodup_key_eq GroupBuy.id hInv.idsNodup hm hg hEq
  exact hna (this ▸ hact)

lemma mem_step_nonactive {st st' : St} (hInv : Inv st) (h : Step st st') (g : GroupBuy)
    (hg : g ∈ st.groupBuys) (hna : g.status ≠ Status.active) : g ∈ st'.groupBuys := by
  cases h with
  | createOrJoin now pid uid st => exact mem_create_nonactive now pid uid st hInv g hg hna
  | join now gid uid st => exact mem_join_nonactive now gid uid st hInv g hg hna
  | sweep now st => exact mem_sweep_nonactive now st hInv g hg hna

end NonActivePreservation

/-- C5: threshold exactness.  In every reachable state: a successful
participant-appending join adds exactly one participant and flips the status
to `completed` precisely when the new length equals the threshold (never
earlier, and a length above the threshold is unreachable for an active
document); a completing join sets `completedAt` to the join time, which was
unset while active; completed documents are never modified by any further
step (so `completedAt` is set exactly once); and any Join against a
completed opportunity fails with `InvalidState('completed')` leaving the
state unchanged. -/
theorem C5_threshold_exactness (st0 st : St) (h0 : InitOk st0) (hr : Reach st0 st) :
    (∀ now gid uid (g : GroupBuy), findGroupBuy st gid = some g →
      g.status = Status.active → ¬ g.expiryDate < now → ¬ alreadyParticipant g uid →
      (joinGroupBuy now gid uid st).result = joinedOk (joinUpdatedDoc now uid g) ∧
      (joinUpdatedDoc now uid g).participants.length = g.participants.length + 1 ∧
      ((joinUpdatedDoc now uid g).status = Status.completed ↔
        g.participants.length + 1 = g.threshold) ∧
      ((joinUpdatedDoc now uid g).status = Status.completed →
        (joinUpdatedDoc now uid g).completedAt = some now) ∧
      ((joinUpdatedDoc now uid g).status = Status.active →
        (joinUpdatedDoc now uid g).completedAt = none)) ∧
    (∀ g ∈ st.groupBuys, g.status = Status.active → g.completedAt = none) ∧
    (∀ g ∈ st.groupBuys, g.status = Status.completed →
      g.participants.length = g.threshold ∧ (∃ t, g.completedAt = some t) ∧
      ∀ st', Step st st' → g ∈ st'.groupBuys) ∧
    (∀ now gid uid (g : GroupBuy), findGroupBuy st gid = some g →
      g.status = Status.completed →
      (joinGroupBuy now gid uid st).result =
        Except.error (GBError.invalidState Status.completed) ∧
      (joinGroupBuy now gid uid st).state = st) := by
  have hInv := reach_inv h0 hr
  refine ⟨?_, ?_, ?_, ?_⟩
  · intro now gid uid g hg ha he hp
    have hmem := List.mem_of_find?_eq_some hg
    have hwf := hInv.gbWf g hmem
    have hlt := (hwf.active_bounds ha).1
    have hca := (hwf.active_bounds ha).2
    have hres : (joinGroupBuy now gid uid st).result =
        joinedOk (joinUpdatedDoc now uid g) := by
      unfold joinGroupBuy
      rw [hg]
      exact joinFromDoc_success_result now uid g st ha he hp
    refine ⟨hres, ?_, ?_, ?_, ?_⟩
    · rw [joinUpdatedDoc_participants]
      simp
    · rw [joinUpdatedDoc_status now uid g ha]
      constructor
      · intro hcomp
        by_cases hth : g.threshold ≤ g.participants.length + 1
        · exact Nat.le_antisymm (Nat.succ_le_of_lt hlt) hth
        · rw [if_neg hth] at hcomp
          cases hcomp
      · intro hEq
        rw [if_pos (le_of_eq hEq.symm)]
    · intro hcomp
      rw [joinUpdatedDoc_status now uid g ha] at hcomp
      by_cases hth : g.threshold ≤ g.participants.length + 1
      · rw [joinUpdatedDoc_completedAt now uid g hca, if_pos hth]
      · rw [if_neg hth] at hcomp
        cases hcomp
    · intro hact
      rw [joinUpdatedDoc_status now uid g ha] at hact
      by_cases hth : g.threshold ≤ g.participants.length + 1
      · rw [if_pos hth] at hact
        cases hact
      · rw [joinUpdatedDoc_completedAt now uid g hca, if_neg hth]
  · intro g hg ha
    exact ((hInv.gbWf g hg).active_bounds ha).2
  · intro g hg hc
    refine ⟨((hInv.gbWf g hg).completed_bounds hc).1,
      ((hInv.gbWf g hg).completed_bounds hc).2, ?_⟩
    intro st' hstep
    exact mem_step_nonactive hInv hstep g hg (by rw [hc]; simp)
  · intro now gid uid g hg hc
    have heq : joinGroupBuy now gid uid st = joinGroupBuyFromDoc now uid g st := by
      unfold joinGroupBuy
      rw [hg]
    rw [heq, joinFromDoc_invalid now uid g st (by rw [hc]; simp), hc]
    exact ⟨rfl, rfl⟩

/-- Witness for C5: the second join of the threshold-3 scenario succeeds and
does not complete (2 ≠ 3), exactly per the threshold iff. -/
theorem C5_threshold_exactness_witness :
    (joinGroupBuy 1 0 101 stT3a).result = joinedOk (joinUpdatedDoc 1 101 docT3) ∧
    ((joinUpdatedDoc 1 101 docT3).status = Status.completed ↔
      docT3.participants.length + 1 = docT3.threshold) := by
  have h := C5_threshold_exactness initT3 stT3a (by decide)
    (Reach.step Reach.refl (Step.createOrJoin 0 1 100 initT3))
  have h1 := h.1 1 0 101 docT3 rfl rfl (by decide) (by decide)
  exact ⟨h1.1, h1.2.2.1⟩

/-- C6: notification exactness.  In every reachable state the sink holds no
events for a non-completed opportunity and exactly the one-per-participant
batch (participants are duplicate-free) for a completed one; a
participant-appending join appends exactly the threshold batch — one event
per post-append participant when the threshold is reached, none otherwise —
and once an opportunity is completed no later operation changes its
recorded events (errors and idempotent re-joins emit nothing). -/
theorem C6_notifications_once (st0 st : St) (h0 : InitOk st0) (hr : Reach st0 st) :
    (∀ g ∈ st.groupBuys, g.status ≠ Status.completed →
      notifsFor st.notifications g.id = []) ∧
    (∀ g ∈ st.groupBuys, g.status = Status.completed →
      notifsFor st.notifications g.id = g.participants.map (mkNotif g) ∧
      (g.participants.map Participant.userId).Nodup) ∧
    (∀ now gid uid (g : GroupBuy), findGroupBuy st gid = some g →
      g.status = Status.active → ¬ g.expiryDate < now → ¬ alreadyParticipant g uid →
      (joinGroupBuy now gid uid st).state.notifications =
        st.notifications ++ joinNotifs now uid g ∧
      (g.threshold ≤ g.participants.length + 1 →
        joinNotifs now uid g =
          (g.participants ++ [({ userId := uid, joinedAt := now } : Participant)]).map
            (mkNotif g)) ∧
      (g.participants.length + 1 < g.threshold → joinNotifs now uid g = [])) ∧
    (∀ g ∈ st.groupBuys, g.status = Status.completed → ∀ st', Step st st' →
      notifsFor st'.notifications g.id = notifsFor st.notifications g.id) := by
  have hInv := reach_inv h0 hr
  refine ⟨?_, ?_, ?_, ?_⟩
  · intro g hg hne
    have h1 := hInv.notifCompleted g hg
    rw [if_neg hne] at h1
    exact h1
  · intro g hg hc
    have h1 := hInv.notifCompleted g hg
    rw [if_pos hc] at h1
    exact ⟨h1, (hInv.gbWf g hg).usersNodup⟩
  · intro now gid uid g hg ha he hp
    refine ⟨?_, joinNotifs_reached now uid g, joinNotifs_below now uid g⟩
    have heq : joinGroupBuy now gid uid st = joinGroupBuyFromDoc now uid g st := by
      unfold joinGroupBuy
      rw [hg]
    rw [heq]
    exact joinFromDoc_success_notifications now uid g st ha he hp
  · intro g hg hc st' hstep
    have hInv' := inv_step hInv hstep
    have hg' : g ∈ st'.groupBuys :=
      mem_step_nonactive hInv hstep g hg (by rw [hc]; simp)
    rw [hInv.notifCompleted g hg, hInv'.notifCompleted g hg']

/-- Witness for C6: in the completed threshold-2 state the sink holds
exactly one event per participant of the completed opportunity. -/
theorem C6_notifications_once_witness :
    notifsFor stT2b.notifications docT2b.id = docT2b.participants.map (mkNotif docT2b) := by
  have h := C6_notifications_once initT2 stT2b (by decide)
    (Reach.step (Reach.step Reach.refl (Step.createOrJoin 0 1 100 initT2))
      (Step.createOrJoin 1 1 101 stT2a))
  exact (h.2.1 docT2b
    (List.mem_of_find?_eq_some (show findGroupBuy stT2b 0 = some docT2b from rfl)) rfl).1

/-- C2 (amended): under *sequential* (non-overlapping) execution the joins
linearize: a successful join appends exactly the new participant — every
earlier participant is retained and none is lost — the stored document after
the call is exactly the returned one, and a completed document is never
modified by any later step, so the `completed` transition fires at most once
per opportunity along any sequential run.  Under concurrent interleaving of
the source's check-then-act pattern this fails (see the counterexample). -/
theorem C2_sequential_joins_linearize (st0 st : St) (h0 : InitOk st0) (hr : Reach st0 st) :
    (∀ now gid uid (g : GroupBuy), findGroupBuy st gid = some g →
      g.status = Status.active → ¬ g.expiryDate < now → ¬ alreadyParticipant g uid →
      (joinGroupBuy now gid uid st).result = joinedOk (joinUpdatedDoc now uid g) ∧
      (joinUpdatedDoc now uid g).participants =
        g.participants ++ [({ userId := uid, joinedAt := now } : Participant)] ∧
      findGroupBuy (joinGroupBuy now gid uid st).state gid =
        some (joinUpdatedDoc now uid g)) ∧
    (∀ g ∈ st.groupBuys, g.status = Status.completed → ∀ st', Step st st' →
      g ∈ st'.groupBuys) := by
  have hInv := reach_inv h0 hr
  refine ⟨?_, ?_⟩
  · intro now gid uid g hg ha he hp
    have hid : g.id = gid := by simpa using List.find?_some hg
    have heq : joinGroupBuy now gid uid st = joinGroupBuyFromDoc now uid g st := by
      unfold joinGroupBuy
      rw [hg]
    refine ⟨?_, joinUpdatedDoc_participants now uid g, ?_⟩
    · rw [heq]
      exact joinFromDoc_success_result now uid g st ha he hp
    · rw [heq]
      unfold findGroupBuy
      rw [joinFromDoc_success_groupBuys now uid g st ha he hp]
      rw [find?_map_replace GroupBuy.id (joinUpdatedDoc now uid g) st.groupBuys gid g.id
        (by simpa using hid) hid]
      unfold findGroupBuy at hg
      rw [hg]
      rfl
  · intro g hg hc st' hstep
    exact mem_step_nonactive hInv hstep g hg (by rw [hc]; simp)

/-- Witness for C2: the second (sequential) join of the threshold-3 scenario
retains participant 100 and appends 101, and the stored document equals the
returned one. -/
theorem C2_sequential_joins_linearize_witness :
    (joinUpdatedDoc 1 101 docT3).participants =
      docT3.participants ++ [({ userId := 101, joinedAt := 1 } : Participant)] ∧
    findGroupBuy (joinGroupBuy 1 0 101 stT3a).state 0 = some (joinUpdatedDoc 1 101 docT3) := by
  have h := C2_sequential_joins_linearize initT3 stT3a (by decide)
    (Reach.step Reach.refl (Step.createOrJoin 0 1 100 initT3))
  have h1 := h.1 1 0 101 docT3 rfl rfl (by decide) (by decide)
  exact ⟨h1.2.1, h1.2.2⟩

end GreenCommerce
